import Mathlib

/-!
Verification of the control logic of the SI47XX_RDS_TOUCH_SHIELD_REF_CLOCK
receiver sketch.

The sketch's mutable globals are collected in `RxState`; each edge-triggered
input handled by `loop` becomes an `Event`, and the body of `loop` that reacts
to one such event becomes `stepT : Event → RxState → RxState × List ChipCmd`,
where the second component records the commands issued to the Si4735 chip
driver (the external collaborator) in the order the sketch issues them.
Values read back from the chip (tuned frequency after a step or a seek) are
inputs carried on the event, because the chip is external to the sketch.
Display rendering (tft drawing, buffers for the frequency readout) is not
modelled; the RDS display caches are, since the RDS scheduler's contract is
about them.
-/

set_option maxHeartbeats 1000000

namespace SI47XX

/-- Band-type constants from the sketch. -/
def FM_BAND_TYPE : Nat := 0

def MW_BAND_TYPE : Nat := 1

def SW_BAND_TYPE : Nat := 2

def LW_BAND_TYPE : Nat := 3

/-- Demodulation-mode constants from the sketch. -/
def FM : Nat := 0

def LSB : Nat := 1

def USB : Nat := 2

def AM : Nat := 3

/-- One row of the sketch's `Band` struct. -/
structure Band where
  bandName : String
  bandType : Nat
  minimumFreq : Nat
  maximumFreq : Nat
  currentFreq : Nat
  currentStep : Nat
  deriving DecidableEq, Repr

/-- The static band table `band[]` of the sketch. -/
def bandTable : List Band :=
  [⟨"FM  ", FM_BAND_TYPE, 8400, 10800, 10390, 10⟩,
   ⟨"LW  ", LW_BAND_TYPE, 100, 510, 300, 1⟩,
   ⟨"AM  ", MW_BAND_TYPE, 520, 1720, 810, 10⟩,
   ⟨"160m", SW_BAND_TYPE, 1800, 3500, 1900, 1⟩,
   ⟨"80m ", SW_BAND_TYPE, 3500, 4500, 3700, 1⟩,
   ⟨"60m ", SW_BAND_TYPE, 4500, 5500, 4850, 5⟩,
   ⟨"49m ", SW_BAND_TYPE, 5600, 6300, 6000, 5⟩,
   ⟨"41m ", SW_BAND_TYPE, 6800, 7800, 7100, 5⟩,
   ⟨"31m ", SW_BAND_TYPE, 9200, 10000, 9600, 5⟩,
   ⟨"30m ", SW_BAND_TYPE, 10000, 11000, 10100, 1⟩,
   ⟨"25m ", SW_BAND_TYPE, 11200, 12500, 11940, 5⟩,
   ⟨"22m ", SW_BAND_TYPE, 13400, 13900, 13600, 5⟩,
   ⟨"20m ", SW_BAND_TYPE, 14000, 14500, 14200, 1⟩,
   ⟨"19m ", SW_BAND_TYPE, 15000, 15900, 15300, 5⟩,
   ⟨"18m ", SW_BAND_TYPE, 17200, 17900, 17600, 5⟩,
   ⟨"17m ", SW_BAND_TYPE, 18000, 18300, 18100, 1⟩,
   ⟨"15m ", SW_BAND_TYPE, 21000, 21900, 21200, 1⟩,
   ⟨"12m ", SW_BAND_TYPE, 24890, 26200, 24940, 1⟩,
   ⟨"CB  ", SW_BAND_TYPE, 26200, 27900, 27500, 1⟩,
   ⟨"10m ", SW_BAND_TYPE, 28000, 30000, 28400, 1⟩,
   ⟨"All HF", SW_BAND_TYPE, 100, 30000, 15000, 1⟩]

/-- `const int lastBand = (sizeof band / sizeof(Band)) - 1`. -/
def lastBand : Nat := bandTable.length - 1

/-- Commands the sketch issues to the Si4735 chip driver. -/
inductive ChipCmd where
  | reset
  | queryLibraryId
  | patchPowerUp
  | setI2CFastMode
  | downloadPatch
  | setI2CStandardMode
  | setSSBConfig (bw : Nat)
  | setTuneFrequencyAntennaCapacitor (c : Nat)
  | setFM (mn mx f st : Nat)
  | setFMDeEmphasis (v : Nat)
  | setSeekFmLimits (mn mx : Nat)
  | setRdsConfig
  | setSSB (mn mx f st mode : Nat)
  | setSSBAutomaticVolumeControl (v : Nat)
  | setSsbSoftMuteMaxAttenuation (v : Nat)
  | setAM (mn mx f st : Nat)
  | setAmSoftMuteMaxAttenuation (v : Nat)
  | setSeekAmLimits (mn mx : Nat)
  | setSeekAmSpacing (v : Nat)
  | setAutomaticGainControl (d n : Nat)
  | setSSBBfo (v : Int)
  | frequencyUp
  | frequencyDown
  | setFrequencyStep (v : Nat)
  | setSSBAudioBandwidth (v : Nat)
  | setSBBSidebandCutoffFilter (v : Nat)
  | setBandwidth (v a : Nat)
  | setFmStereoOn
  | setFmStereoOff
  | setAudioMute (b : Bool)
  | volumeUp
  | volumeDown
  | seekStationProgress (up : Bool)
  deriving DecidableEq, Repr

/-- The sketch's mutable globals relevant to the control logic.  The three
`char *` RDS pointers are modelled as `Option String` (`none` = NULL, `some v`
= a valid buffer currently holding `v`); the three `buffer...` arrays holding
the last value pushed to the display are modelled as `String`. -/
structure RxState where
  bfoOn : Bool
  audioMute : Bool
  ssbLoaded : Bool
  fmStereo : Bool
  agcIdx : Nat
  disableAgc : Nat
  agcNdx : Nat
  currentBFO : Int
  bandIdx : Nat
  lastSwBand : Nat
  band : List Band
  currentFrequency : Nat
  previousFrequency : Nat
  currentStep : Nat
  currentBFOStep : Nat
  bwIdxSSB : Nat
  bwIdxAM : Nat
  currentMode : Nat
  rdsMsgPtr : Option String
  stationNamePtr : Option String
  rdsTimePtr : Option String
  bufferRdsMsg : String
  bufferStatioName : String
  bufferRdsTime : String
  deriving DecidableEq, Repr

/-- Placeholder entry returned when a band index is out of range (the C code
would have undefined behaviour there; all theorems carry the in-range
hypotheses the sketch maintains). -/
def dummyBand : Band := ⟨"", 0, 0, 0, 0, 0⟩

/-- `band[bandIdx]`. -/
def bandAt (s : RxState) : Band := s.band.getD s.bandIdx dummyBand

/-- The saving prologue shared by every band/mode change:
`band[bandIdx].currentFreq = currentFrequency; band[bandIdx].currentStep = currentStep;`. -/
def saveBandState (s : RxState) : RxState :=
  let e := { bandAt s with currentFreq := s.currentFrequency,
                           currentStep := s.currentStep }
  { s with band := s.band.set s.bandIdx e }

/-- The chip commands issued by `loadSSB()`, in source order. -/
def ssbLoaderCmds (bw : Nat) : List ChipCmd :=
  [ChipCmd.reset, ChipCmd.queryLibraryId, ChipCmd.patchPowerUp,
   ChipCmd.setI2CFastMode, ChipCmd.downloadPatch, ChipCmd.setI2CStandardMode,
   ChipCmd.setSSBConfig bw]

/-- `loadSSB()`: streams the patch and finally sets `ssbLoaded = true`. -/
def loadSSBF (s : RxState) : RxState × List ChipCmd :=
  ({ s with ssbLoaded := true }, ssbLoaderCmds s.bwIdxSSB)

/-- `useBand()`: programs the chip for `band[bandIdx]` and loads its persisted
frequency and step into the live state. -/
def useBandF (s : RxState) : RxState × List ChipCmd :=
  let b := bandAt s
  if b.bandType = FM_BAND_TYPE then
    ({ s with currentMode := FM, bfoOn := false, ssbLoaded := false,
              currentFrequency := b.currentFreq, currentStep := b.currentStep },
     [ChipCmd.setTuneFrequencyAntennaCapacitor 0,
      ChipCmd.setFM b.minimumFreq b.maximumFreq b.currentFreq b.currentStep,
      ChipCmd.setFMDeEmphasis 1,
      ChipCmd.setSeekFmLimits b.minimumFreq b.maximumFreq,
      ChipCmd.setRdsConfig,
      ChipCmd.setAutomaticGainControl s.disableAgc s.agcNdx])
  else
    let antCmd : ChipCmd :=
      if b.bandType = MW_BAND_TYPE ∨ b.bandType = LW_BAND_TYPE then
        ChipCmd.setTuneFrequencyAntennaCapacitor 0
      else
        ChipCmd.setTuneFrequencyAntennaCapacitor 1
    let lastSw : Nat :=
      if b.bandType = MW_BAND_TYPE ∨ b.bandType = LW_BAND_TYPE then
        s.lastSwBand
      else
        s.bandIdx
    let spacing : Nat := if b.currentStep > 10 then 10 else b.currentStep
    if s.ssbLoaded = true then
      ({ s with lastSwBand := lastSw,
                currentFrequency := b.currentFreq, currentStep := b.currentStep },
       [antCmd,
        ChipCmd.setSSB b.minimumFreq b.maximumFreq b.currentFreq b.currentStep
          s.currentMode,
        ChipCmd.setSSBAutomaticVolumeControl 1,
        ChipCmd.setSsbSoftMuteMaxAttenuation 0,
        ChipCmd.setSeekAmLimits b.minimumFreq b.maximumFreq,
        ChipCmd.setSeekAmSpacing spacing,
        ChipCmd.setAutomaticGainControl s.disableAgc s.agcNdx])
    else
      ({ s with lastSwBand := lastSw, currentMode := AM, bfoOn := false,
                currentFrequency := b.currentFreq, currentStep := b.currentStep },
       [antCmd,
        ChipCmd.setAM b.minimumFreq b.maximumFreq b.currentFreq b.currentStep,
        ChipCmd.setAmSoftMuteMaxAttenuation 0,
        ChipCmd.setSeekAmLimits b.minimumFreq b.maximumFreq,
        ChipCmd.setSeekAmSpacing spacing,
        ChipCmd.setAutomaticGainControl s.disableAgc s.agcNdx])

/-- The AGC/attenuation if-else ladder of the `bAGC` handler, as a pure map
from the current `(agcIdx, disableAgc, agcNdx)` to the new triple
`(agcIdx, disableAgc, agcNdx)`. -/
def agcPress (i d n : Nat) : Nat × Nat × Nat :=
  if i = 0 then (1, 0, 0)
  else if i = 1 then (2, 1, 0)
  else if i = 2 then (3, 1, 5)
  else if i = 3 then (4, 1, 10)
  else if i = 4 then (5, 1, 15)
  else if i = 5 then (6, 1, 20)
  else if i = 6 then (7, 1, 25)
  else if i = 7 then (8, 1, 30)
  else if i = 8 then (9, 1, 35)
  else if i = 9 then (0, 1, 0)
  else (i, d, n)

/-- One edge-triggered input processed by `loop`.  Events carry the values the
chip reports back where the sketch reads them (`getFrequency` after an encoder
step; the intermediate and final frequencies of a seek). -/
inductive Event where
  | encoderRotate (cw : Bool) (chipFreq : Nat)
  | bandUpBtn
  | bandDownBtn
  | volUpBtn
  | volDownBtn
  | seekUpBtn (freqs : List Nat) (finalFreq : Nat)
  | seekDownBtn (freqs : List Nat) (finalFreq : Nat)
  | muteBtn
  | amBtn
  | fmBtn
  | mwBtn
  | swBtn
  | lsbBtn
  | usbBtn
  | agcBtn
  | filterBtn
  | stepBtn
  | encoderPush
  deriving DecidableEq, Repr

/-- The body of `loop` reacting to one event: the new state together with the
chip commands issued, in order. -/
def stepT (e : Event) (s : RxState) : RxState × List ChipCmd :=
  match e with
  | Event.encoderRotate cw chipFreq =>
      if s.bfoOn = true then
        let nb : Int :=
          if cw then s.currentBFO + (s.currentBFOStep : Int)
          else s.currentBFO - (s.currentBFOStep : Int)
        ({ s with currentBFO := nb }, [ChipCmd.setSSBBfo nb])
      else
        ({ s with currentFrequency := chipFreq },
         [if cw then ChipCmd.frequencyUp else ChipCmd.frequencyDown])
  | Event.bandUpBtn =>
      let s1 := saveBandState s
      useBandF { s1 with bandIdx := if s.bandIdx < lastBand then s.bandIdx + 1 else 0 }
  | Event.bandDownBtn =>
      let s1 := saveBandState s
      useBandF { s1 with bandIdx := if 0 < s.bandIdx then s.bandIdx - 1 else lastBand }
  | Event.volUpBtn => (s, [ChipCmd.volumeUp])
  | Event.volDownBtn => (s, [ChipCmd.volumeDown])
  | Event.seekUpBtn freqs finalFreq =>
      let s1 :=
        match freqs.getLast? with
        | some f => { s with previousFrequency := f, currentFrequency := f }
        | none => s
      ({ s1 with currentFrequency := finalFreq }, [ChipCmd.seekStationProgress true])
  | Event.seekDownBtn freqs finalFreq =>
      let s1 :=
        match freqs.getLast? with
        | some f => { s with previousFrequency := f, currentFrequency := f }
        | none => s
      ({ s1 with currentFrequency := finalFreq }, [ChipCmd.seekStationProgress false])
  | Event.muteBtn =>
      ({ s with audioMute := !s.audioMute }, [ChipCmd.setAudioMute (!s.audioMute)])
  | Event.amBtn =>
      if s.currentMode ≠ FM then
        useBandF (saveBandState { s with currentMode := AM, ssbLoaded := false, bfoOn := false })
      else (s, [])
  | Event.fmBtn =>
      if s.currentMode ≠ FM then
        let s1 := saveBandState s
        useBandF { s1 with ssbLoaded := false, bfoOn := false, currentMode := FM, bandIdx := 0 }
      else (s, [])
  | Event.mwBtn =>
      let s1 := saveBandState s
      useBandF { s1 with ssbLoaded := false, bfoOn := false, currentMode := AM, bandIdx := 2 }
  | Event.swBtn =>
      let s1 := saveBandState s
      useBandF { s1 with ssbLoaded := false, bfoOn := false, currentMode := AM,
                         bandIdx := s.lastSwBand }
  | Event.lsbBtn =>
      if s.currentMode ≠ FM then
        let p1 := if s.ssbLoaded = false then loadSSBF s else (s, [])
        let p2 := useBandF (saveBandState { p1.1 with currentMode := LSB })
        (p2.1, p1.2 ++ p2.2)
      else (s, [])
  | Event.usbBtn =>
      if s.currentMode ≠ FM then
        let p1 := if s.ssbLoaded = false then loadSSBF s else (s, [])
        let p2 := useBandF (saveBandState { p1.1 with currentMode := USB })
        (p2.1, p1.2 ++ p2.2)
      else (s, [])
  | Event.agcBtn =>
      let t := agcPress s.agcIdx s.disableAgc s.agcNdx
      ({ s with agcIdx := t.1, disableAgc := t.2.1, agcNdx := t.2.2 },
       [ChipCmd.setAutomaticGainControl t.2.1 t.2.2])
  | Event.filterBtn =>
      if s.currentMode = LSB ∨ s.currentMode = USB then
        let nb := if s.bwIdxSSB + 1 > 5 then 0 else s.bwIdxSSB + 1
        ({ s with bwIdxSSB := nb },
         [ChipCmd.setSSBAudioBandwidth nb,
          if nb = 0 ∨ nb = 4 ∨ nb = 5 then ChipCmd.setSBBSidebandCutoffFilter 0
          else ChipCmd.setSBBSidebandCutoffFilter 1])
      else if s.currentMode = AM then
        let nb := if s.bwIdxAM + 1 > 6 then 0 else s.bwIdxAM + 1
        ({ s with bwIdxAM := nb }, [ChipCmd.setBandwidth nb 1])
      else (s, [])
  | Event.stepBtn =>
      if s.currentMode = FM then
        ({ s with fmStereo := !s.fmStereo },
         [if !s.fmStereo then ChipCmd.setFmStereoOn else ChipCmd.setFmStereoOff])
      else
        if s.bfoOn = true ∧ (s.currentMode = LSB ∨ s.currentMode = USB) then
          ({ s with currentBFOStep := if s.currentBFOStep = 25 then 10 else 25 }, [])
        else
          let ns : Nat :=
            if s.currentStep = 1 then 5
            else if s.currentStep = 5 then 10
            else if s.currentStep = 10 then 100
            else if s.currentStep = 100 ∧ s.bandIdx = lastBand then 500
            else 1
          ({ s with currentStep := ns,
                    band := s.band.set s.bandIdx { bandAt s with currentStep := ns } },
           [ChipCmd.setFrequencyStep ns,
            ChipCmd.setSeekAmSpacing (if ns > 10 then 10 else ns)])
  | Event.encoderPush =>
      if s.currentMode = LSB ∨ s.currentMode = USB then
        ({ s with bfoOn := !s.bfoOn }, [])
      else (s, [])

/-- The state component of one loop reaction. -/
def stepF (e : Event) (s : RxState) : RxState := (stepT e s).1

/-- A sequence of loop reactions. -/
def stepsF (es : List Event) (s : RxState) : RxState :=
  es.foldl (fun t e => stepF e t) s

/-- Global-initialisation values of the sketch's globals (before `setup`). -/
def startupState : RxState :=
  { bfoOn := false, audioMute := false, ssbLoaded := false, fmStereo := true,
    agcIdx := 0, disableAgc := 0, agcNdx := 0, currentBFO := 0,
    bandIdx := 0, lastSwBand := 7, band := bandTable,
    currentFrequency := 0, previousFrequency := 0, currentStep := 1,
    currentBFOStep := 25, bwIdxSSB := 2, bwIdxAM := 1, currentMode := FM,
    rdsMsgPtr := none, stationNamePtr := none, rdsTimePtr := none,
    bufferRdsMsg := "", bufferStatioName := "", bufferRdsTime := "" }

/-- State at the end of `setup()`: `useBand()` has run on band 0 and
`currentFrequency = previousFrequency = si4735.getFrequency()` echoes the
frequency just tuned (10390). -/
def initState : RxState :=
  { (useBandF startupState).1 with currentFrequency := 10390,
                                   previousFrequency := 10390 }

/-- Chip answers consumed by one FM-block iteration (`getRdsStatus` flags and
the three RDS text pointers). -/
structure RdsResp where
  received : Bool
  sync : Bool
  syncFound : Bool
  text2A : Option String
  text0A : Option String
  time : Option String
  deriving DecidableEq, Repr

/-- A value pushed to the display by `printText` in one of the three showRDS
functions. -/
inductive RdsPush where
  | msg (v : String)
  | station (v : String)
  | time (v : String)
  deriving DecidableEq, Repr

/-- `showRDSMsg()`: compare the cache with the buffer behind `rdsMsg` and push
on difference (the push also copies the new value into the cache). -/
def showRDSMsgF (s : RxState) (v : String) : RxState × List RdsPush :=
  if s.bufferRdsMsg = v then (s, [])
  else ({ s with bufferRdsMsg := v }, [RdsPush.msg v])

/-- `showRDSStation()`. -/
def showRDSStationF (s : RxState) (v : String) : RxState × List RdsPush :=
  if s.bufferStatioName = v then (s, [])
  else ({ s with bufferStatioName := v }, [RdsPush.station v])

/-- `showRDSTime()`. -/
def showRDSTimeF (s : RxState) (v : String) : RxState × List RdsPush :=
  if s.bufferRdsTime = v then (s, [])
  else ({ s with bufferRdsTime := v }, [RdsPush.time v])

/-- `checkRDS()`: on sync, latch the three chip pointers and run the guarded
showRDS pushes. -/
def checkRDSF (s : RxState) (r : RdsResp) : RxState × List RdsPush :=
  if r.received = true then
    if r.sync && r.syncFound then
      let s1 := { s with rdsMsgPtr := r.text2A, stationNamePtr := r.text0A,
                         rdsTimePtr := r.time }
      let p1 :=
        match s1.rdsMsgPtr with
        | some v => showRDSMsgF s1 v
        | none => (s1, [])
      let p2 :=
        match p1.1.stationNamePtr with
        | some v => showRDSStationF p1.1 v
        | none => (p1.1, [])
      let p3 :=
        match p2.1.rdsTimePtr with
        | some v => showRDSTimeF p2.1 v
        | none => (p2.1, [])
      (p3.1, p1.2 ++ p2.2 ++ p3.2)
    else (s, [])
  else (s, [])

/-- The FM block at the end of `loop`: on a frequency change it writes a NUL
into the buffers behind the three RDS pointers and clears the three display
caches, replays `showRDSMsg`/`showRDSStation`, updates `previousFrequency`,
then runs `checkRDS`.  Writing through a NULL pointer is modelled as `none`
(the sketch would fault there). -/
def fmRdsTick (s : RxState) (r : RdsResp) : Option (RxState × List RdsPush) :=
  if s.currentMode = FM then
    if s.currentFrequency ≠ s.previousFrequency then
      match s.rdsTimePtr, s.rdsMsgPtr, s.stationNamePtr with
      | some _, some _, some _ =>
        let s1 := { s with bufferStatioName := "", bufferRdsMsg := "",
                           rdsTimePtr := some "", bufferRdsTime := "",
                           rdsMsgPtr := some "", stationNamePtr := some "" }
        let p1 := showRDSMsgF s1 ""
        let p2 := showRDSStationF p1.1 ""
        let s2 := { p2.1 with previousFrequency := p2.1.currentFrequency }
        let p3 := checkRDSF s2 r
        some (p3.1, p1.2 ++ p2.2 ++ p3.2)
      | _, _, _ => none
    else some (checkRDSF s r)
  else some (s, [])

/-- States reachable at tick boundaries: the end of `setup`, then any sequence
of event reactions and FM-block iterations. -/
inductive Reachable : RxState → Prop where
  | init : Reachable initState
  | step (e : Event) {s : RxState} : Reachable s → Reachable (stepF e s)
  | rds {s s' : RxState} (r : RdsResp) (p : List RdsPush) :
      Reachable s → fmRdsTick s r = some (s', p) → Reachable s'

/-! ### List helper lemmas -/

theorem getD_set_self {α : Type} (l : List α) (i : Nat) (a d : α)
    (h : i < l.length) : (l.set i a).getD i d = a := by
  induction l generalizing i with
  | nil => simp at h
  | cons x xs ih =>
    cases i with
    | zero => rfl
    | succ n =>
      simp only [List.set_cons_succ, List.getD_cons_succ]
      exact ih n (by simpa using h)

theorem getD_set_ne {α : Type} (l : List α) (i j : Nat) (a d : α)
    (h : i ≠ j) : (l.set i a).getD j d = l.getD j d := by
  induction l generalizing i j with
  | nil => simp [List.set]
  | cons x xs ih =>
    cases i with
    | zero =>
      cases j with
      | zero => exact absurd rfl h
      | succ m => rfl
    | succ n =>
      cases j with
      | zero => rfl
      | succ m =>
        simp only [List.set_cons_succ, List.getD_cons_succ]
        exact ih n m (fun hnm => h (by simp [hnm]))

theorem set_getD_self {α : Type} (l : List α) (i : Nat) (d : α)
    (h : i < l.length) : l.set i (l.getD i d) = l := by
  induction l generalizing i with
  | nil => rfl
  | cons x xs ih =>
    cases i with
    | zero => rfl
    | succ n =>
      simp only [List.getD_cons_succ, List.set_cons_succ, List.cons.injEq, true_and]
      exact ih n (by simpa using h)

/-! ### Projection lemmas for `useBandF` -/

theorem useBandF_bandIdx (s : RxState) : (useBandF s).1.bandIdx = s.bandIdx := by
  unfold useBandF
  dsimp only
  split_ifs <;> rfl

theorem useBandF_band (s : RxState) : (useBandF s).1.band = s.band := by
  unfold useBandF
  dsimp only
  split_ifs <;> rfl

theorem useBandF_freq (s : RxState) :
    (useBandF s).1.currentFrequency = (bandAt s).currentFreq := by
  unfold useBandF
  dsimp only
  split_ifs <;> rfl

theorem useBandF_step (s : RxState) :
    (useBandF s).1.currentStep = (bandAt s).currentStep := by
  unfold useBandF
  dsimp only
  split_ifs <;> rfl

/-- List update beyond the length is a no-op. -/
theorem set_of_length_le {α : Type} (l : List α) (i : Nat) (a : α)
    (h : l.length ≤ i) : l.set i a = l := by
  induction l generalizing i with
  | nil => rfl
  | cons x xs ih =>
    cases i with
    | zero => simp at h
    | succ n =>
      simp only [List.set_cons_succ, List.cons.injEq, true_and]
      exact ih n (by simpa using h)

/-- The antenna-capacitor command chosen by the non-FM branch of `useBand`. -/
def uAntCmd (s : RxState) : ChipCmd :=
  if (bandAt s).bandType = MW_BAND_TYPE ∨ (bandAt s).bandType = LW_BAND_TYPE then
    ChipCmd.setTuneFrequencyAntennaCapacitor 0
  else
    ChipCmd.setTuneFrequencyAntennaCapacitor 1

/-- The `lastSwBand` value after the non-FM branch of `useBand`. -/
def uLastSw (s : RxState) : Nat :=
  if (bandAt s).bandType = MW_BAND_TYPE ∨ (bandAt s).bandType = LW_BAND_TYPE then
    s.lastSwBand
  else
    s.bandIdx

/-- `useBand` on an FM-type band. -/
theorem useBandF_eq_fm (s : RxState) (h : (bandAt s).bandType = FM_BAND_TYPE) :
    useBandF s =
      ({ s with currentMode := FM, bfoOn := false, ssbLoaded := false,
                currentFrequency := (bandAt s).currentFreq,
                currentStep := (bandAt s).currentStep },
       [ChipCmd.setTuneFrequencyAntennaCapacitor 0,
        ChipCmd.setFM (bandAt s).minimumFreq (bandAt s).maximumFreq
          (bandAt s).currentFreq (bandAt s).currentStep,
        ChipCmd.setFMDeEmphasis 1,
        ChipCmd.setSeekFmLimits (bandAt s).minimumFreq (bandAt s).maximumFreq,
        ChipCmd.setRdsConfig,
        ChipCmd.setAutomaticGainControl s.disableAgc s.agcNdx]) := by
  unfold useBandF
  dsimp only
  rw [if_pos h]

/-- `useBand` on a non-FM band with the SSB patch loaded: the current mode is
preserved and `setSSB` is issued. -/
theorem useBandF_eq_ssb (s : RxState) (h : (bandAt s).bandType ≠ FM_BAND_TYPE)
    (hs : s.ssbLoaded = true) :
    useBandF s =
      ({ s with lastSwBand := uLastSw s,
                currentFrequency := (bandAt s).currentFreq,
                currentStep := (bandAt s).currentStep },
       [uAntCmd s,
        ChipCmd.setSSB (bandAt s).minimumFreq (bandAt s).maximumFreq
          (bandAt s).currentFreq (bandAt s).currentStep s.currentMode,
        ChipCmd.setSSBAutomaticVolumeControl 1,
        ChipCmd.setSsbSoftMuteMaxAttenuation 0,
        ChipCmd.setSeekAmLimits (bandAt s).minimumFreq (bandAt s).maximumFreq,
        ChipCmd.setSeekAmSpacing
          (if (bandAt s).currentStep > 10 then 10 else (bandAt s).currentStep),
        ChipCmd.setAutomaticGainControl s.disableAgc s.agcNdx]) := by
  unfold useBandF uAntCmd uLastSw
  dsimp only
  rw [if_neg h, if_pos hs]

/-- `useBand` on a non-FM band without the SSB patch: forces AM mode and
clears `bfoOn`. -/
theorem useBandF_eq_am (s : RxState) (h : (bandAt s).bandType ≠ FM_BAND_TYPE)
    (hs : s.ssbLoaded = false) :
    useBandF s =
      ({ s with lastSwBand := uLastSw s, currentMode := AM, bfoOn := false,
                currentFrequency := (bandAt s).currentFreq,
                currentStep := (bandAt s).currentStep },
       [uAntCmd s,
        ChipCmd.setAM (bandAt s).minimumFreq (bandAt s).maximumFreq
          (bandAt s).currentFreq (bandAt s).currentStep,
        ChipCmd.setAmSoftMuteMaxAttenuation 0,
        ChipCmd.setSeekAmLimits (bandAt s).minimumFreq (bandAt s).maximumFreq,
        ChipCmd.setSeekAmSpacing
          (if (bandAt s).currentStep > 10 then 10 else (bandAt s).currentStep),
        ChipCmd.setAutomaticGainControl s.disableAgc s.agcNdx]) := by
  unfold useBandF uAntCmd uLastSw
  dsimp only
  rw [if_neg h, if_neg (by simp [hs])]

/-! ### Band-table bookkeeping -/

/-- Each entry of the live band table still has the band type (and identity)
it was created with: only `currentFreq`/`currentStep` are ever written back. -/
def typesOk (l : List Band) : Prop :=
  ∀ i, (l.getD i dummyBand).bandType = (bandTable.getD i dummyBand).bandType

theorem typesOk_bandTable : typesOk bandTable := fun _ => rfl

theorem saveBandState_band (s : RxState) :
    (saveBandState s).band = s.band.set s.bandIdx
      { bandAt s with currentFreq := s.currentFrequency,
                      currentStep := s.currentStep } := rfl

theorem saveBandState_typesOk (s : RxState) (h : typesOk s.band) :
    typesOk (saveBandState s).band := by
  intro i
  rw [saveBandState_band]
  by_cases hlt : s.bandIdx < s.band.length
  · by_cases hij : s.bandIdx = i
    · subst hij
      rw [getD_set_self _ _ _ _ hlt]
      exact h s.bandIdx
    · rw [getD_set_ne _ _ _ _ _ hij]
      exact h i
  · rw [set_of_length_le _ _ _ (Nat.le_of_not_lt hlt)]
    exact h i

/-! ### MW/SW shortcuts while in FM mode (claim C2) -/

/-- C2 (counterexample): in the initial state (FM mode, band 0) pressing the
MW shortcut is not a no-op: it moves to band index 2 in AM mode, changing the
receiver state and issuing chip commands; likewise the SW shortcut moves to
`lastSwBand` (7). -/
theorem claim_C2_counterexample :
    initState.currentMode = FM ∧ initState.bandIdx = 0 ∧
    (stepF Event.mwBtn initState).bandIdx = 2 ∧
    (stepF Event.mwBtn initState).currentMode = AM ∧
    ¬ stepF Event.mwBtn initState = initState ∧
    ¬ (stepT Event.mwBtn initState).2 = [] ∧
    (stepF Event.swBtn initState).bandIdx = 7 ∧
    (stepF Event.swBtn initState).currentMode = AM ∧
    ¬ stepF Event.swBtn initState = initState := by
  decide

/-- C2 (amended): the MW and SW shortcut handlers have no FM-mode guard, so in
FM mode they are not no-ops: each saves the current tuning into the active
band, clears `ssbLoaded` and `bfoOn`, forces AM mode, selects band index 2
(MW) resp. `lastSwBand` (SW), and reprograms the chip through `useBand`.
(Only the AM/LSB/USB buttons check the FM-mode precondition.) -/
theorem claim_C2_amended (s : RxState) (_hm : s.currentMode = FM)
    (ht : typesOk s.band)
    (hswt : (s.band.getD s.lastSwBand dummyBand).bandType = SW_BAND_TYPE) :
    ((stepF Event.mwBtn s).bandIdx = 2 ∧
     (stepF Event.mwBtn s).currentMode = AM ∧
     (stepF Event.mwBtn s).ssbLoaded = false ∧
     (stepF Event.mwBtn s).bfoOn = false ∧
     ¬ (stepT Event.mwBtn s).2 = []) ∧
    ((stepF Event.swBtn s).bandIdx = s.lastSwBand ∧
     (stepF Event.swBtn s).currentMode = AM ∧
     (stepF Event.swBtn s).ssbLoaded = false ∧
     (stepF Event.swBtn s).bfoOn = false ∧
     ¬ (stepT Event.swBtn s).2 = []) := by
  have hts := saveBandState_typesOk s ht
  constructor
  · have h2 : (bandAt
        { saveBandState s with
            ssbLoaded := false, bfoOn := false, currentMode := AM,
            bandIdx := 2 }).bandType ≠ FM_BAND_TYPE := by
      show ((saveBandState s).band.getD 2 dummyBand).bandType ≠ FM_BAND_TYPE
      rw [hts 2]
      decide
    have e1 : stepT Event.mwBtn s =
        useBandF
          { saveBandState s with
              ssbLoaded := false, bfoOn := false, currentMode := AM,
              bandIdx := 2 } := rfl
    have e2 := useBandF_eq_am _ h2 rfl
    refine ⟨?_, ?_, ?_, ?_, ?_⟩ <;> simp [stepF, e1, e2]
  · have h2 : (bandAt
        { saveBandState s with
            ssbLoaded := false, bfoOn := false, currentMode := AM,
            bandIdx := s.lastSwBand }).bandType ≠ FM_BAND_TYPE := by
      show ((saveBandState s).band.getD s.lastSwBand dummyBand).bandType ≠ FM_BAND_TYPE
      rw [hts s.lastSwBand]
      have h3 := ht s.lastSwBand
      rw [hswt] at h3
      rw [← h3]
      decide
    have e1 : stepT Event.swBtn s =
        useBandF
          { saveBandState s with
              ssbLoaded := false, bfoOn := false, currentMode := AM,
              bandIdx := s.lastSwBand } := rfl
    have e2 := useBandF_eq_am _ h2 rfl
    refine ⟨?_, ?_, ?_, ?_, ?_⟩ <;> simp [stepF, e1, e2]

/-- Witness for C2 (amended) at the initial state. -/
theorem claim_C2_amended_witness :
    initState.currentMode = FM ∧
    (stepF Event.mwBtn initState).bandIdx = 2 ∧
    (stepF Event.swBtn initState).bandIdx = initState.lastSwBand := by
  have h := claim_C2_amended initState rfl (fun i => rfl) (by decide)
  exact ⟨rfl, h.1.1, h.2.1⟩

/-! ### The AGC ladder (claim C1) -/

/-- Effect of one `bAGC` press on the three AGC globals. -/
theorem agcBtn_state (s : RxState) :
    stepF Event.agcBtn s =
      { s with agcIdx := (agcPress s.agcIdx s.disableAgc s.agcNdx).1,
               disableAgc := (agcPress s.agcIdx s.disableAgc s.agcNdx).2.1,
               agcNdx := (agcPress s.agcIdx s.disableAgc s.agcNdx).2.2 } := rfl

/-- C1 (counterexample): starting from the AGC state the sketch is in at rung
index 3 (`agcIdx = 3`, `disableAgc = 1`, `agcNdx = 5`), seven further presses
of the AGC control bring the rung index back to 0 with attenuation 0, but the
chip is commanded with `disableAgc = 1`, i.e. AGC stays disabled — the claim's
"AGC enabled" is false. -/
theorem claim_C1_counterexample :
    (stepsF (List.replicate 7 Event.agcBtn)
        { initState with agcIdx := 3, disableAgc := 1, agcNdx := 5 }).agcIdx = 0 ∧
    (stepsF (List.replicate 7 Event.agcBtn)
        { initState with agcIdx := 3, disableAgc := 1, agcNdx := 5 }).agcNdx = 0 ∧
    ¬ (stepsF (List.replicate 7 Event.agcBtn)
        { initState with agcIdx := 3, disableAgc := 1, agcNdx := 5 }).disableAgc = 0 := by
  decide

/-- C1 (amended): from any state at AGC rung index 3, seven presses of the AGC
control return the rung index to 0 with attenuation 0 and the AGC-disable flag
still set (the chip is commanded AGC-off; the display, which tests only
`agcNdx == 0 && agcIdx == 0`, reads "AGC ON"); the next press at rung 0
re-enables AGC with attenuation 0.  The press at rung 0 applies
(enabled, 0) and the presses at rungs 1–9 apply AGC-disabled with attenuations
0, 5, 10, 15, 20, 25, 30, 35, 0 respectively. -/
theorem claim_C1_amended (s : RxState) (h : s.agcIdx = 3) :
    (stepsF (List.replicate 7 Event.agcBtn) s).agcIdx = 0 ∧
    (stepsF (List.replicate 7 Event.agcBtn) s).disableAgc = 1 ∧
    (stepsF (List.replicate 7 Event.agcBtn) s).agcNdx = 0 ∧
    (stepF Event.agcBtn (stepsF (List.replicate 7 Event.agcBtn) s)).agcIdx = 1 ∧
    (stepF Event.agcBtn (stepsF (List.replicate 7 Event.agcBtn) s)).disableAgc = 0 ∧
    (stepF Event.agcBtn (stepsF (List.replicate 7 Event.agcBtn) s)).agcNdx = 0 ∧
    (∀ d n, agcPress 0 d n = (1, 0, 0)) ∧
    (∀ d n, agcPress 1 d n = (2, 1, 0)) ∧
    (∀ d n, agcPress 2 d n = (3, 1, 5)) ∧
    (∀ d n, agcPress 3 d n = (4, 1, 10)) ∧
    (∀ d n, agcPress 4 d n = (5, 1, 15)) ∧
    (∀ d n, agcPress 5 d n = (6, 1, 20)) ∧
    (∀ d n, agcPress 6 d n = (7, 1, 25)) ∧
    (∀ d n, agcPress 7 d n = (8, 1, 30)) ∧
    (∀ d n, agcPress 8 d n = (9, 1, 35)) ∧
    (∀ d n, agcPress 9 d n = (0, 1, 0)) := by
  have h1 : stepF Event.agcBtn s = { s with agcIdx := 4, disableAgc := 1, agcNdx := 10 } := by
    rw [agcBtn_state, h]
    rfl
  have h2 : stepF Event.agcBtn { s with agcIdx := 4, disableAgc := 1, agcNdx := 10 } =
      { s with agcIdx := 5, disableAgc := 1, agcNdx := 15 } := rfl
  have h3 : stepF Event.agcBtn { s with agcIdx := 5, disableAgc := 1, agcNdx := 15 } =
      { s with agcIdx := 6, disableAgc := 1, agcNdx := 20 } := rfl
  have h4 : stepF Event.agcBtn { s with agcIdx := 6, disableAgc := 1, agcNdx := 20 } =
      { s with agcIdx := 7, disableAgc := 1, agcNdx := 25 } := rfl
  have h5 : stepF Event.agcBtn { s with agcIdx := 7, disableAgc := 1, agcNdx := 25 } =
      { s with agcIdx := 8, disableAgc := 1, agcNdx := 30 } := rfl
  have h6 : stepF Event.agcBtn { s with agcIdx := 8, disableAgc := 1, agcNdx := 30 } =
      { s with agcIdx := 9, disableAgc := 1, agcNdx := 35 } := rfl
  have h7 : stepF Event.agcBtn { s with agcIdx := 9, disableAgc := 1, agcNdx := 35 } =
      { s with agcIdx := 0, disableAgc := 1, agcNdx := 0 } := rfl
  have h8 : stepF Event.agcBtn { s with agcIdx := 0, disableAgc := 1, agcNdx := 0 } =
      { s with agcIdx := 1, disableAgc := 0, agcNdx := 0 } := rfl
  have hs : stepsF (List.replicate 7 Event.agcBtn) s =
      { s with agcIdx := 0, disableAgc := 1, agcNdx := 0 } := by
    simp only [stepsF, List.replicate, List.foldl, h1, h2, h3, h4, h5, h6, h7]
  simp only [hs, h8]
  exact ⟨trivial, trivial, trivial, trivial, trivial, trivial,
    fun d n => rfl, fun d n => rfl, fun d n => rfl, fun d n => rfl, fun d n => rfl,
    fun d n => rfl, fun d n => rfl, fun d n => rfl, fun d n => rfl, fun d n => rfl⟩

/-- Witness for C1 (amended) at a concrete state. -/
theorem claim_C1_amended_witness :
    ({ initState with agcIdx := 3, disableAgc := 1, agcNdx := 5 } : RxState).agcIdx = 3 ∧
    (stepsF (List.replicate 7 Event.agcBtn)
      { initState with agcIdx := 3, disableAgc := 1, agcNdx := 5 }).agcIdx = 0 := by
  refine ⟨rfl, ?_⟩
  exact (claim_C1_amended { initState with agcIdx := 3, disableAgc := 1, agcNdx := 5 } rfl).1

/-! ### Null-pointer hazard in the FM RDS clear (claim C10) -/

/-- C10 (failing execution): at power-up the three RDS pointers are NULL; an
encoder rotation in FM retunes from 10390 to 10400, and the next FM block hits
the clear line `... rdsTime[0] = ... rdsMsg[0] = stationName[0] = '\0'`, a
write through NULL pointers (modelled as `none`). -/
theorem claim_C10_bug :
    initState.rdsMsgPtr = none ∧ initState.stationNamePtr = none ∧
    initState.rdsTimePtr = none ∧ initState.currentMode = FM ∧
    (stepF (Event.encoderRotate true 10400) initState).currentFrequency = 10400 ∧
    (stepF (Event.encoderRotate true 10400) initState).previousFrequency = 10390 ∧
    fmRdsTick (stepF (Event.encoderRotate true 10400) initState)
      ⟨false, false, false, none, none, none⟩ = none := by
  decide

/-! ### Band selection round-trips (claim C4) -/

theorem bandAt_eq (t : RxState) : bandAt t = t.band.getD t.bandIdx dummyBand := rfl

theorem stepF_bandUp (s : RxState) :
    stepF Event.bandUpBtn s =
      (useBandF { saveBandState s with
          bandIdx := if s.bandIdx < lastBand then s.bandIdx + 1 else 0 }).1 := rfl

theorem stepF_bandDown (s : RxState) :
    stepF Event.bandDownBtn s =
      (useBandF { saveBandState s with
          bandIdx := if 0 < s.bandIdx then s.bandIdx - 1 else lastBand }).1 := rfl

/-- The concrete scenario state of C4: band "41m" (index 7), AM mode,
frequency 7100, step 5, consistent with the table. -/
def band41State : RxState :=
  { startupState with
      bandIdx := 7
      lastSwBand := 7
      currentMode := AM
      currentFrequency := 7100
      previousFrequency := 7100
      currentStep := 5 }

/-- C4: band selection round-trips.  Band-up then band-down restores the
frequency, step and band index of any state (the outgoing tuning is
snapshotted into the table and reloaded on return); and the concrete "41m"
scenario — three band-up presses followed by three band-down presses — returns
the receiver state bit-for-bit. -/
theorem claim_C4_roundtrip :
    (∀ s : RxState, s.band.length = 21 → s.bandIdx ≤ 20 →
      (stepF Event.bandDownBtn (stepF Event.bandUpBtn s)).currentFrequency
          = s.currentFrequency ∧
      (stepF Event.bandDownBtn (stepF Event.bandUpBtn s)).currentStep
          = s.currentStep ∧
      (stepF Event.bandDownBtn (stepF Event.bandUpBtn s)).bandIdx = s.bandIdx) ∧
    stepsF [Event.bandUpBtn, Event.bandUpBtn, Event.bandUpBtn, Event.bandDownBtn,
            Event.bandDownBtn, Event.bandDownBtn] band41State = band41State := by
  constructor
  · intro s hlen hi
    have hlb : lastBand = 20 := rfl
    have hilen : s.bandIdx < s.band.length := by omega
    have hsb : (saveBandState s).band =
        s.band.set s.bandIdx
          { bandAt s with currentFreq := s.currentFrequency,
                          currentStep := s.currentStep } := rfl
    have hlen1 : (saveBandState s).band.length = 21 := by
      rw [hsb, List.length_set, hlen]
    have hjlt : (if s.bandIdx < lastBand then s.bandIdx + 1 else 0) < 21 := by
      rw [hlb]
      split_ifs <;> omega
    have hUband : (stepF Event.bandUpBtn s).band = (saveBandState s).band := by
      rw [stepF_bandUp, useBandF_band]
    have hUidx : (stepF Event.bandUpBtn s).bandIdx =
        (if s.bandIdx < lastBand then s.bandIdx + 1 else 0) := by
      rw [stepF_bandUp, useBandF_bandIdx]
    have hUfreq : (stepF Event.bandUpBtn s).currentFrequency =
        ((saveBandState s).band.getD
          (if s.bandIdx < lastBand then s.bandIdx + 1 else 0) dummyBand).currentFreq := by
      rw [stepF_bandUp, useBandF_freq, bandAt_eq]
    have hUstep : (stepF Event.bandUpBtn s).currentStep =
        ((saveBandState s).band.getD
          (if s.bandIdx < lastBand then s.bandIdx + 1 else 0) dummyBand).currentStep := by
      rw [stepF_bandUp, useBandF_step, bandAt_eq]
    have hsave2 : (saveBandState (stepF Event.bandUpBtn s)).band = (saveBandState s).band := by
      have h1 : (saveBandState (stepF Event.bandUpBtn s)).band =
          (stepF Event.bandUpBtn s).band.set (stepF Event.bandUpBtn s).bandIdx
            { bandAt (stepF Event.bandUpBtn s) with
                currentFreq := (stepF Event.bandUpBtn s).currentFrequency,
                currentStep := (stepF Event.bandUpBtn s).currentStep } := rfl
      rw [h1, bandAt_eq, hUband, hUidx, hUfreq, hUstep]
      have h2 : ({ (saveBandState s).band.getD
            (if s.bandIdx < lastBand then s.bandIdx + 1 else 0) dummyBand with
          currentFreq := ((saveBandState s).band.getD
            (if s.bandIdx < lastBand then s.bandIdx + 1 else 0) dummyBand).currentFreq,
          currentStep := ((saveBandState s).band.getD
            (if s.bandIdx < lastBand then s.bandIdx + 1 else 0) dummyBand).currentStep } : Band)
          = (saveBandState s).band.getD
              (if s.bandIdx < lastBand then s.bandIdx + 1 else 0) dummyBand := rfl
      rw [h2]
      exact set_getD_self _ _ _ (by omega)
    have hk : (if 0 < (stepF Event.bandUpBtn s).bandIdx
        then (stepF Event.bandUpBtn s).bandIdx - 1 else lastBand) = s.bandIdx := by
      rw [hUidx, hlb]
      split_ifs <;> omega
    have hD := stepF_bandDown (stepF Event.bandUpBtn s)
    have hDfreq : (stepF Event.bandDownBtn (stepF Event.bandUpBtn s)).currentFrequency =
        ((saveBandState (stepF Event.bandUpBtn s)).band.getD
          (if 0 < (stepF Event.bandUpBtn s).bandIdx
           then (stepF Event.bandUpBtn s).bandIdx - 1 else lastBand) dummyBand).currentFreq := by
      rw [hD, useBandF_freq, bandAt_eq]
    have hDstep : (stepF Event.bandDownBtn (stepF Event.bandUpBtn s)).currentStep =
        ((saveBandState (stepF Event.bandUpBtn s)).band.getD
          (if 0 < (stepF Event.bandUpBtn s).bandIdx
           then (stepF Event.bandUpBtn s).bandIdx - 1 else lastBand) dummyBand).currentStep := by
      rw [hD, useBandF_step, bandAt_eq]
    have hDidx : (stepF Event.bandDownBtn (stepF Event.bandUpBtn s)).bandIdx =
        (if 0 < (stepF Event.bandUpBtn s).bandIdx
         then (stepF Event.bandUpBtn s).bandIdx - 1 else lastBand) := by
      rw [hD, useBandF_bandIdx]
    have hback : ((saveBandState s).band.getD s.bandIdx dummyBand) =
        { bandAt s with currentFreq := s.currentFrequency,
                        currentStep := s.currentStep } := by
      rw [hsb]
      exact getD_set_self _ _ _ _ hilen
    refine ⟨?_, ?_, ?_⟩
    · rw [hDfreq, hsave2, hk, hback]
    · rw [hDstep, hsave2, hk, hback]
    · rw [hDidx, hk]
  · decide

/-- Witness for C4 at the "41m" scenario state. -/
theorem claim_C4_roundtrip_witness :
    band41State.band.length = 21 ∧ band41State.bandIdx ≤ 20 ∧
    (stepF Event.bandDownBtn (stepF Event.bandUpBtn band41State)).currentFrequency
        = band41State.currentFrequency := by
  refine ⟨by decide, by decide, ?_⟩
  exact (claim_C4_roundtrip.1 band41State (by decide) (by decide)).1

/-! ### Frequency-invariant of band selection (claim C3) -/

/-- A table entry's persisted frequency lies within its own limits. -/
def entryOk (b : Band) : Prop :=
  b.minimumFreq ≤ b.currentFreq ∧ b.currentFreq ≤ b.maximumFreq

/-- Every entry of the table satisfies `entryOk`. -/
def tableOk (l : List Band) : Prop :=
  ∀ i, i < l.length → entryOk (l.getD i dummyBand)

/-- The live frequency lies within the active band's limits. -/
def inRange (s : RxState) : Prop :=
  (bandAt s).minimumFreq ≤ s.currentFrequency ∧
  s.currentFrequency ≤ (bandAt s).maximumFreq

theorem saveBandState_length (s : RxState) :
    (saveBandState s).band.length = s.band.length := by
  rw [saveBandState_band, List.length_set]

/-- `useBand` loads the incoming band's persisted frequency verbatim, so the
result is in range whenever the table is. -/
theorem useBandF_inRange (s : RxState) (h : tableOk s.band)
    (hi : s.bandIdx < s.band.length) : inRange (useBandF s).1 := by
  have h1 := h s.bandIdx hi
  unfold entryOk at h1
  unfold inRange
  rw [bandAt_eq, useBandF_band, useBandF_bandIdx, useBandF_freq, bandAt_eq]
  exact h1

/-- Writing the live tuning back into the active band keeps the table in
range, provided the live tuning is in range for that band. -/
theorem saveBandState_tableOk (s : RxState) (hcur : inRange s)
    (ht : tableOk s.band) : tableOk (saveBandState s).band := by
  intro i hilen
  rw [saveBandState_length] at hilen
  rw [saveBandState_band]
  by_cases hij : s.bandIdx = i
  · subst hij
    rw [getD_set_self _ _ _ _ hilen]
    exact hcur
  · rw [getD_set_ne _ _ _ _ _ hij]
    exact ht i hilen

/-- The state with an out-of-range persisted frequency (99999 on the 31m band,
whose limits are 9200–10000) used to refute the clamping part of C3. -/
def badTableState : RxState :=
  { startupState with
      bandIdx := 7
      currentMode := AM
      currentFrequency := 7100
      currentStep := 5
      band := bandTable.set 8 ⟨"31m ", SW_BAND_TYPE, 9200, 10000, 99999, 5⟩ }

/-- C3 (counterexample): if the persisted frequency of the incoming band is
out of range, band selection loads and keeps it verbatim — nothing clamps.
From band 7, band-up selects band 8 (31m, max 10000) and the live frequency
becomes 99999, above the band maximum, and the stored entry still holds
99999. -/
theorem claim_C3_counterexample :
    (stepF Event.bandUpBtn badTableState).bandIdx = 8 ∧
    (stepF Event.bandUpBtn badTableState).currentFrequency = 99999 ∧
    (bandAt (stepF Event.bandUpBtn badTableState)).maximumFreq = 10000 ∧
    ¬ (stepF Event.bandUpBtn badTableState).currentFrequency ≤
        (bandAt (stepF Event.bandUpBtn badTableState)).maximumFreq ∧
    (bandAt (stepF Event.bandUpBtn badTableState)).currentFreq = 99999 := by
  decide

/-- C3 (amended): band selection performs no clamping — it loads the incoming
band's persisted frequency verbatim.  Provided every table entry's persisted
frequency is within its own limits and the live frequency is within the
active band's limits (which the chip's own limit enforcement maintains),
`minFreq ≤ currentFreq ≤ maxFreq` holds after band-up, band-down and each
family shortcut. -/
theorem claim_C3_amended (s : RxState) (hlen : s.band.length = 21)
    (hi : s.bandIdx ≤ 20) (hsw : s.lastSwBand ≤ 20) (ht : tableOk s.band)
    (hcur : inRange s) :
    inRange (stepF Event.bandUpBtn s) ∧ inRange (stepF Event.bandDownBtn s) ∧
    inRange (stepF Event.mwBtn s) ∧ inRange (stepF Event.swBtn s) ∧
    inRange (stepF Event.fmBtn s) := by
  have hsave := saveBandState_tableOk s hcur ht
  have hslen : (saveBandState s).band.length = 21 := by
    rw [saveBandState_length, hlen]
  have hlb : lastBand = 20 := rfl
  refine ⟨?_, ?_, ?_, ?_, ?_⟩
  · rw [stepF_bandUp]
    apply useBandF_inRange
    · exact hsave
    · show (if s.bandIdx < lastBand then s.bandIdx + 1 else 0) <
        (saveBandState s).band.length
      rw [hslen, hlb]
      split_ifs <;> omega
  · rw [stepF_bandDown]
    apply useBandF_inRange
    · exact hsave
    · show (if 0 < s.bandIdx then s.bandIdx - 1 else lastBand) <
        (saveBandState s).band.length
      rw [hslen, hlb]
      split_ifs <;> omega
  · have h1 : stepF Event.mwBtn s =
        (useBandF
          { saveBandState s with
              ssbLoaded := false, bfoOn := false, currentMode := AM,
              bandIdx := 2 }).1 := rfl
    rw [h1]
    apply useBandF_inRange
    · exact hsave
    · show (2 : Nat) < (saveBandState s).band.length
      rw [hslen]
      omega
  · have h1 : stepF Event.swBtn s =
        (useBandF
          { saveBandState s with
              ssbLoaded := false, bfoOn := false, currentMode := AM,
              bandIdx := s.lastSwBand }).1 := rfl
    rw [h1]
    apply useBandF_inRange
    · exact hsave
    · show s.lastSwBand < (saveBandState s).band.length
      rw [hslen]
      omega
  · by_cases hfm : s.currentMode = FM
    · have h1 : stepF Event.fmBtn s = s := by
        simp [stepF, stepT, hfm]
      rw [h1]
      exact hcur
    · have h1 : stepF Event.fmBtn s =
          (useBandF
            { saveBandState s with
                ssbLoaded := false, bfoOn := false, currentMode := FM,
                bandIdx := 0 }).1 := by
        simp only [stepF, stepT]
        rw [if_pos hfm]
      rw [h1]
      apply useBandF_inRange
      · exact hsave
      · show (0 : Nat) < (saveBandState s).band.length
        rw [hslen]
        omega

/-- The initial band table is in range. -/
theorem tableOk_init : tableOk initState.band := by
  intro i hi
  have hlen : initState.band.length = 21 := by decide
  rw [hlen] at hi
  interval_cases i <;> exact ⟨by decide, by decide⟩

/-- Witness for C3 (amended) at the initial state. -/
theorem claim_C3_amended_witness :
    initState.band.length = 21 ∧ initState.bandIdx ≤ 20 ∧
    inRange initState ∧ inRange (stepF Event.bandUpBtn initState) := by
  refine ⟨by decide, by decide, ⟨by decide, by decide⟩, ?_⟩
  exact (claim_C3_amended initState (by decide) (by decide) (by decide)
    tableOk_init ⟨by decide, by decide⟩).1

/-! ### State invariants (claims C5 and C8) -/

/-- `bfoOn` may be set only in an SSB mode. -/
def InvBfo (s : RxState) : Prop :=
  s.bfoOn = true → s.currentMode = LSB ∨ s.currentMode = USB

/-- `ssbLoaded` is false whenever the mode is FM or AM. -/
def InvSsb (s : RxState) : Prop :=
  s.currentMode = FM ∨ s.currentMode = AM → s.ssbLoaded = false

theorem bool_eq_false {b : Bool} (h : ¬ b = true) : b = false := by
  cases hb : b
  · rfl
  · exact absurd hb h

theorem useBandF_InvBfo (s : RxState) (h : InvBfo s) : InvBfo (useBandF s).1 := by
  by_cases hfm : (bandAt s).bandType = FM_BAND_TYPE
  · rw [useBandF_eq_fm s hfm]
    intro hb
    simp at hb
  · by_cases hss : s.ssbLoaded = true
    · rw [useBandF_eq_ssb s hfm hss]
      intro hb
      exact h hb
    · rw [useBandF_eq_am s hfm (bool_eq_false hss)]
      intro hb
      simp at hb

theorem useBandF_InvSsb (s : RxState) (h : InvSsb s) : InvSsb (useBandF s).1 := by
  by_cases hfm : (bandAt s).bandType = FM_BAND_TYPE
  · rw [useBandF_eq_fm s hfm]
    intro _
    rfl
  · by_cases hss : s.ssbLoaded = true
    · rw [useBandF_eq_ssb s hfm hss]
      intro hmode
      have h1 := h hmode
      rw [hss] at h1
      exact absurd h1 (by simp)
    · rw [useBandF_eq_am s hfm (bool_eq_false hss)]
      intro _
      exact bool_eq_false hss

theorem useBandF_ssb_mono (s : RxState)
    (h : (useBandF s).1.ssbLoaded = true) : s.ssbLoaded = true := by
  by_cases hfm : (bandAt s).bandType = FM_BAND_TYPE
  · rw [useBandF_eq_fm s hfm] at h
    simp at h
  · by_cases hss : s.ssbLoaded = true
    · exact hss
    · rw [useBandF_eq_am s hfm (bool_eq_false hss)] at h
      exact h

/-- The display pushes produced for one RDS field: push exactly when the chip
offers a value different from the cache. -/
def pushOf (ptr : Option String) (cache : String) (mk : String → RdsPush) :
    List RdsPush :=
  match ptr with
  | some v => if cache = v then [] else [mk v]
  | none => []

/-- `checkRDS` when the chip reports received and synchronized RDS data:
pointers are latched, each cache follows its pointer, and each field pushes
exactly when its new value differs from the cache. -/
theorem checkRDSF_eq (s : RxState) (r : RdsResp) (h1 : r.received = true)
    (h2 : r.sync = true) (h3 : r.syncFound = true) :
    checkRDSF s r =
      ({ s with rdsMsgPtr := r.text2A, stationNamePtr := r.text0A,
                rdsTimePtr := r.time,
                bufferRdsMsg := r.text2A.getD s.bufferRdsMsg,
                bufferStatioName := r.text0A.getD s.bufferStatioName,
                bufferRdsTime := r.time.getD s.bufferRdsTime },
       pushOf r.text2A s.bufferRdsMsg RdsPush.msg ++
       pushOf r.text0A s.bufferStatioName RdsPush.station ++
       pushOf r.time s.bufferRdsTime RdsPush.time) := by
  unfold checkRDSF showRDSMsgF showRDSStationF showRDSTimeF pushOf
  rw [if_pos h1, if_pos (show (r.sync && r.syncFound) = true by rw [h2, h3]; rfl)]
  dsimp only
  cases r.text2A <;> cases r.text0A <;> cases r.time <;> dsimp only <;>
    first
      | (split_ifs <;> simp_all)
      | simp_all

theorem checkRDSF_not_received (s : RxState) (r : RdsResp)
    (h1 : r.received = false) : checkRDSF s r = (s, []) := by
  unfold checkRDSF
  rw [if_neg (by simp [h1])]

theorem checkRDSF_not_sync (s : RxState) (r : RdsResp) (h1 : r.received = true)
    (h2 : (r.sync && r.syncFound) = false) : checkRDSF s r = (s, []) := by
  unfold checkRDSF
  rw [if_pos h1, if_neg (by simp [h2])]

/-- `checkRDS` touches only the RDS pointers and caches. -/
theorem checkRDSF_nonRds (s : RxState) (r : RdsResp) :
    (checkRDSF s r).1.bfoOn = s.bfoOn ∧
    (checkRDSF s r).1.currentMode = s.currentMode ∧
    (checkRDSF s r).1.ssbLoaded = s.ssbLoaded ∧
    (checkRDSF s r).1.band = s.band ∧
    (checkRDSF s r).1.bandIdx = s.bandIdx := by
  cases h1 : r.received
  · rw [checkRDSF_not_received s r h1]
    exact ⟨rfl, rfl, rfl, rfl, rfl⟩
  · cases h2 : r.sync && r.syncFound
    · rw [checkRDSF_not_sync s r h1 h2]
      exact ⟨rfl, rfl, rfl, rfl, rfl⟩
    · have h3 : r.sync = true := by
        cases hs : r.sync
        · rw [hs] at h2
          simp at h2
        · rfl
      have h4 : r.syncFound = true := by
        cases hs : r.syncFound
        · rw [hs] at h2
          simp at h2
        · rfl
      rw [checkRDSF_eq s r h1 h3 h4]
      exact ⟨rfl, rfl, rfl, rfl, rfl⟩

/-- The state just after the RDS clear assignments and showRDS replays of the
FM block, written as one flat record update. -/
def clearedState (s : RxState) : RxState :=
  { s with bufferStatioName := "", bufferRdsMsg := "", rdsTimePtr := some "",
           bufferRdsTime := "", rdsMsgPtr := some "", stationNamePtr := some "",
           previousFrequency := s.currentFrequency }

/-- In FM with a changed frequency and valid pointers, the FM block reduces to
`checkRDS` on the cleared state (the replayed showRDS calls push nothing). -/
theorem fmRdsTick_eq_cleared (s : RxState) (r : RdsResp)
    (hfm : s.currentMode = FM) (hne : s.currentFrequency ≠ s.previousFrequency)
    (a b c : String) (ht : s.rdsTimePtr = some a) (hm : s.rdsMsgPtr = some b)
    (hn : s.stationNamePtr = some c) :
    fmRdsTick s r =
      some ((checkRDSF (clearedState s) r).1, (checkRDSF (clearedState s) r).2) := by
  unfold fmRdsTick
  rw [if_pos hfm, if_pos hne, ht, hm, hn]
  rfl

/-- In FM with an unchanged frequency the FM block is just `checkRDS`. -/
theorem fmRdsTick_eq_check (s : RxState) (r : RdsResp)
    (hfm : s.currentMode = FM) (hne : ¬ s.currentFrequency ≠ s.previousFrequency) :
    fmRdsTick s r = some ((checkRDSF s r).1, (checkRDSF s r).2) := by
  unfold fmRdsTick
  rw [if_pos hfm, if_neg hne]

/-- Outside FM the FM block does nothing. -/
theorem fmRdsTick_eq_skip (s : RxState) (r : RdsResp)
    (hfm : ¬ s.currentMode = FM) : fmRdsTick s r = some (s, []) := by
  unfold fmRdsTick
  rw [if_neg hfm]

/-- The FM block touches only the RDS fields and `previousFrequency`. -/
theorem fmRdsTick_nonRds (s s' : RxState) (r : RdsResp) (p : List RdsPush)
    (h : fmRdsTick s r = some (s', p)) :
    s'.bfoOn = s.bfoOn ∧ s'.currentMode = s.currentMode ∧
    s'.ssbLoaded = s.ssbLoaded ∧ s'.band = s.band ∧ s'.bandIdx = s.bandIdx := by
  by_cases hfm : s.currentMode = FM
  · by_cases hne : s.currentFrequency ≠ s.previousFrequency
    · rcases ht : s.rdsTimePtr with _ | a
      · unfold fmRdsTick at h
        rw [if_pos hfm, if_pos hne, ht] at h
        rcases hm : s.rdsMsgPtr with _ | b <;> rw [hm] at h <;> exact absurd h (by simp)
      · rcases hm : s.rdsMsgPtr with _ | b
        · unfold fmRdsTick at h
          rw [if_pos hfm, if_pos hne, ht, hm] at h
          exact absurd h (by simp)
        · rcases hn : s.stationNamePtr with _ | c
          · unfold fmRdsTick at h
            rw [if_pos hfm, if_pos hne, ht, hm, hn] at h
            exact absurd h (by simp)
          · rw [fmRdsTick_eq_cleared s r hfm hne a b c ht hm hn] at h
            simp only [Option.some.injEq, Prod.mk.injEq] at h
            obtain ⟨h1, _⟩ := h
            have h3 := checkRDSF_nonRds (clearedState s) r
            rw [← h1]
            exact ⟨h3.1.trans rfl, h3.2.1.trans rfl, h3.2.2.1.trans rfl,
              h3.2.2.2.1.trans rfl, h3.2.2.2.2.trans rfl⟩
    · rw [fmRdsTick_eq_check s r hfm hne] at h
      simp only [Option.some.injEq, Prod.mk.injEq] at h
      obtain ⟨h1, _⟩ := h
      have h3 := checkRDSF_nonRds s r
      rw [← h1]
      exact ⟨h3.1, h3.2.1, h3.2.2.1, h3.2.2.2.1, h3.2.2.2.2⟩
  · rw [fmRdsTick_eq_skip s r hfm] at h
    simp only [Option.some.injEq, Prod.mk.injEq] at h
    obtain ⟨h1, _⟩ := h
    rw [← h1]
    exact ⟨rfl, rfl, rfl, rfl, rfl⟩

/-- One loop reaction preserves "`bfoOn` only in SSB modes". -/
theorem stepF_InvBfo (e : Event) (s : RxState) (h : InvBfo s) :
    InvBfo (stepF e s) := by
  cases e with
  | encoderRotate cw f =>
      dsimp only [stepF, stepT]
      split_ifs <;> exact h
  | bandUpBtn =>
      exact useBandF_InvBfo
        { saveBandState s with
            bandIdx := if s.bandIdx < lastBand then s.bandIdx + 1 else 0 } h
  | bandDownBtn =>
      exact useBandF_InvBfo
        { saveBandState s with
            bandIdx := if 0 < s.bandIdx then s.bandIdx - 1 else lastBand } h
  | volUpBtn => exact h
  | volDownBtn => exact h
  | seekUpBtn freqs f =>
      dsimp only [stepF, stepT]
      cases freqs.getLast? <;> exact h
  | seekDownBtn freqs f =>
      dsimp only [stepF, stepT]
      cases freqs.getLast? <;> exact h
  | muteBtn => exact h
  | amBtn =>
      dsimp only [stepF, stepT]
      split_ifs with h1
      · exact useBandF_InvBfo _ (fun hb => nomatch hb)
      · exact h
  | fmBtn =>
      dsimp only [stepF, stepT]
      split_ifs with h1
      · exact useBandF_InvBfo _ (fun hb => nomatch hb)
      · exact h
  | mwBtn => exact useBandF_InvBfo _ (fun hb => nomatch hb)
  | swBtn => exact useBandF_InvBfo _ (fun hb => nomatch hb)
  | lsbBtn =>
      dsimp only [stepF, stepT]
      split_ifs with h1 h2
      · exact useBandF_InvBfo _ (fun _ => Or.inl rfl)
      · exact useBandF_InvBfo _ (fun _ => Or.inl rfl)
      · exact h
  | usbBtn =>
      dsimp only [stepF, stepT]
      split_ifs with h1 h2
      · exact useBandF_InvBfo _ (fun _ => Or.inr rfl)
      · exact useBandF_InvBfo _ (fun _ => Or.inr rfl)
      · exact h
  | agcBtn => exact h
  | filterBtn =>
      dsimp only [stepF, stepT]
      split_ifs <;> exact h
  | stepBtn =>
      dsimp only [stepF, stepT]
      split_ifs <;> exact h
  | encoderPush =>
      dsimp only [stepF, stepT]
      split_ifs with h1
      · intro _
        exact h1
      · exact h

/-- One loop reaction preserves "`ssbLoaded` is false in FM/AM". -/
theorem stepF_InvSsb (e : Event) (s : RxState) (h : InvSsb s) :
    InvSsb (stepF e s) := by
  cases e with
  | encoderRotate cw f =>
      dsimp only [stepF, stepT]
      split_ifs <;> exact h
  | bandUpBtn =>
      exact useBandF_InvSsb
        { saveBandState s with
            bandIdx := if s.bandIdx < lastBand then s.bandIdx + 1 else 0 } h
  | bandDownBtn =>
      exact useBandF_InvSsb
        { saveBandState s with
            bandIdx := if 0 < s.bandIdx then s.bandIdx - 1 else lastBand } h
  | volUpBtn => exact h
  | volDownBtn => exact h
  | seekUpBtn freqs f =>
      dsimp only [stepF, stepT]
      cases freqs.getLast? <;> exact h
  | seekDownBtn freqs f =>
      dsimp only [stepF, stepT]
      cases freqs.getLast? <;> exact h
  | muteBtn => exact h
  | amBtn =>
      dsimp only [stepF, stepT]
      split_ifs with h1
      · exact useBandF_InvSsb _ (fun _ => rfl)
      · exact h
  | fmBtn =>
      dsimp only [stepF, stepT]
      split_ifs with h1
      · exact useBandF_InvSsb _ (fun _ => rfl)
      · exact h
  | mwBtn => exact useBandF_InvSsb _ (fun _ => rfl)
  | swBtn => exact useBandF_InvSsb _ (fun _ => rfl)
  | lsbBtn =>
      dsimp only [stepF, stepT]
      split_ifs with h1 h2
      · exact useBandF_InvSsb _ (fun hm => by rcases hm with h3 | h3 <;> exact nomatch h3)
      · exact useBandF_InvSsb _ (fun hm => by rcases hm with h3 | h3 <;> exact nomatch h3)
      · exact h
  | usbBtn =>
      dsimp only [stepF, stepT]
      split_ifs with h1 h2
      · exact useBandF_InvSsb _ (fun hm => by rcases hm with h3 | h3 <;> exact nomatch h3)
      · exact useBandF_InvSsb _ (fun hm => by rcases hm with h3 | h3 <;> exact nomatch h3)
      · exact h
  | agcBtn => exact h
  | filterBtn =>
      dsimp only [stepF, stepT]
      split_ifs <;> exact h
  | stepBtn =>
      dsimp only [stepF, stepT]
      split_ifs <;> exact h
  | encoderPush =>
      dsimp only [stepF, stepT]
      split_ifs <;> exact h

theorem reachable_InvBfo (s : RxState) (h : Reachable s) : InvBfo s := by
  induction h with
  | init =>
      intro hb
      exact absurd hb (by decide)
  | step e hr ih => exact stepF_InvBfo e _ ih
  | rds r p hr heq ih =>
      intro hb
      have h1 := fmRdsTick_nonRds _ _ _ _ heq
      rw [h1.1] at hb
      rw [h1.2.1]
      exact ih hb

theorem reachable_InvSsb (s : RxState) (h : Reachable s) : InvSsb s := by
  induction h with
  | init =>
      intro _
      decide
  | step e hr ih => exact stepF_InvSsb e _ ih
  | rds r p hr heq ih =>
      intro hm
      have h1 := fmRdsTick_nonRds _ _ _ _ heq
      rw [h1.2.1] at hm
      rw [h1.2.2.1]
      exact ih hm

/-- Across one loop reaction, `ssbLoaded` can become true only through the
LSB/USB handlers (which run `loadSSB` to completion), and only outside FM. -/
theorem stepF_ssb_mono (e : Event) (s : RxState)
    (h2 : (stepF e s).ssbLoaded = true) :
    s.ssbLoaded = true ∨
    ((e = Event.lsbBtn ∨ e = Event.usbBtn) ∧ s.currentMode ≠ FM) := by
  cases e with
  | encoderRotate cw f =>
      left
      dsimp only [stepF, stepT] at h2
      split_ifs at h2 <;> exact h2
  | bandUpBtn =>
      left
      exact useBandF_ssb_mono
        { saveBandState s with
            bandIdx := if s.bandIdx < lastBand then s.bandIdx + 1 else 0 } h2
  | bandDownBtn =>
      left
      exact useBandF_ssb_mono
        { saveBandState s with
            bandIdx := if 0 < s.bandIdx then s.bandIdx - 1 else lastBand } h2
  | volUpBtn => exact Or.inl h2
  | volDownBtn => exact Or.inl h2
  | seekUpBtn freqs f =>
      left
      dsimp only [stepF, stepT] at h2
      revert h2
      cases freqs.getLast? <;> exact fun h2 => h2
  | seekDownBtn freqs f =>
      left
      dsimp only [stepF, stepT] at h2
      revert h2
      cases freqs.getLast? <;> exact fun h2 => h2
  | muteBtn => exact Or.inl h2
  | amBtn =>
      left
      dsimp only [stepF, stepT] at h2
      split_ifs at h2 with h1
      · have h3 := useBandF_ssb_mono
          (saveBandState { s with currentMode := AM, ssbLoaded := false, bfoOn := false }) h2
        exact nomatch h3
      · exact h2
  | fmBtn =>
      left
      dsimp only [stepF, stepT] at h2
      split_ifs at h2 with h1
      · have h3 := useBandF_ssb_mono
          { saveBandState s with
              ssbLoaded := false, bfoOn := false, currentMode := FM,
              bandIdx := 0 } h2
        exact nomatch h3
      · exact h2
  | mwBtn =>
      left
      have h3 := useBandF_ssb_mono
        { saveBandState s with
            ssbLoaded := false, bfoOn := false, currentMode := AM,
            bandIdx := 2 } h2
      exact nomatch h3
  | swBtn =>
      left
      have h3 := useBandF_ssb_mono
        { saveBandState s with
            ssbLoaded := false, bfoOn := false, currentMode := AM,
            bandIdx := s.lastSwBand } h2
      exact nomatch h3
  | lsbBtn =>
      dsimp only [stepF, stepT] at h2
      split_ifs at h2 with h1 h2b
      · exact Or.inr ⟨Or.inl rfl, h1⟩
      · left
        cases hb : s.ssbLoaded
        · exact absurd hb h2b
        · rfl
      · exact Or.inl h2
  | usbBtn =>
      dsimp only [stepF, stepT] at h2
      split_ifs at h2 with h1 h2b
      · exact Or.inr ⟨Or.inr rfl, h1⟩
      · left
        cases hb : s.ssbLoaded
        · exact absurd hb h2b
        · rfl
      · exact Or.inl h2
  | agcBtn => exact Or.inl h2
  | filterBtn =>
      left
      dsimp only [stepF, stepT] at h2
      split_ifs at h2 <;> exact h2
  | stepBtn =>
      left
      dsimp only [stepF, stepT] at h2
      split_ifs at h2 <;> exact h2
  | encoderPush =>
      left
      dsimp only [stepF, stepT] at h2
      split_ifs at h2 <;> exact h2

/-- C5: in every reachable state whose mode is FM or AM, `ssbLoaded` is false
(so every transition landing in FM or AM leaves it false); and one reaction
can turn `ssbLoaded` from false to true only through the LSB/USB handlers —
which run `loadSSB` to completion, `ssbLoaded := true` being its final step —
and only outside FM mode. -/
theorem claim_C5 :
    (∀ s : RxState, Reachable s →
        s.currentMode = FM ∨ s.currentMode = AM → s.ssbLoaded = false) ∧
    (∀ (e : Event) (s : RxState), s.ssbLoaded = false →
        (stepF e s).ssbLoaded = true →
        (e = Event.lsbBtn ∨ e = Event.usbBtn) ∧ s.currentMode ≠ FM) := by
  constructor
  · exact fun s h => reachable_InvSsb s h
  · intro e s hs h2
    rcases stepF_ssb_mono e s h2 with h3 | h3
    · rw [hs] at h3
      exact absurd h3 (by simp)
    · exact h3

/-- Witness for C5: the initial state is reachable with mode FM, and pressing
LSB on the AM state reached by one band-up press sets `ssbLoaded`. -/
theorem claim_C5_witness :
    initState.ssbLoaded = false ∧
    (stepF Event.bandUpBtn initState).ssbLoaded = false ∧
    (stepF Event.lsbBtn (stepF Event.bandUpBtn initState)).ssbLoaded = true ∧
    ((Event.lsbBtn = Event.lsbBtn ∨ Event.lsbBtn = Event.usbBtn) ∧
      (stepF Event.bandUpBtn initState).currentMode ≠ FM) := by
  refine ⟨?_, by decide, by decide, ?_⟩
  · exact claim_C5.1 initState Reachable.init (Or.inl rfl)
  · exact claim_C5.2 Event.lsbBtn (stepF Event.bandUpBtn initState)
      (by decide) (by decide)

/-- C8: in every reachable state `bfoOn` holds only in LSB/USB mode; any
reaction that lands in FM or AM mode leaves `bfoOn` false; and the encoder
push button can switch `bfoOn` on only when the mode is LSB or USB. -/
theorem claim_C8 :
    (∀ s : RxState, Reachable s → s.bfoOn = true →
        s.currentMode = LSB ∨ s.currentMode = USB) ∧
    (∀ (e : Event) (s : RxState), InvBfo s →
        (stepF e s).currentMode = FM ∨ (stepF e s).currentMode = AM →
        (stepF e s).bfoOn = false) ∧
    (∀ s : RxState, s.bfoOn = false →
        (stepF Event.encoderPush s).bfoOn = true →
        s.currentMode = LSB ∨ s.currentMode = USB) := by
  refine ⟨?_, ?_, ?_⟩
  · exact fun s h => reachable_InvBfo s h
  · intro e s h hmode
    have h2 := stepF_InvBfo e s h
    cases hb : (stepF e s).bfoOn
    · rfl
    · rcases h2 hb with h3 | h3 <;> rcases hmode with h4 | h4 <;>
        (rw [h3] at h4; exact absurd h4 (by decide))
  · intro s h0 h1
    by_cases hm : s.currentMode = LSB ∨ s.currentMode = USB
    · exact hm
    · have hid : stepF Event.encoderPush s = s := by
        dsimp only [stepF, stepT]
        rw [if_neg hm]
      rw [hid, h0] at h1
      exact absurd h1 (by simp)

/-- A reachable state with `bfoOn` set: band-up to LW/AM, load SSB via the
LSB button, then push the encoder button. -/
def bfoWitnessState : RxState :=
  stepF Event.encoderPush (stepF Event.lsbBtn (stepF Event.bandUpBtn initState))

/-- Witness for C8 at a concrete reachable state with `bfoOn = true`. -/
theorem claim_C8_witness :
    bfoWitnessState.bfoOn = true ∧
    (bfoWitnessState.currentMode = LSB ∨ bfoWitnessState.currentMode = USB) := by
  refine ⟨by decide, ?_⟩
  exact claim_C8.1 bfoWitnessState
    (Reachable.step Event.encoderPush
      (Reachable.step Event.lsbBtn
        (Reachable.step Event.bandUpBtn Reachable.init)))
    (by decide)

/-! ### The patch loader (claim C6) -/

/-- Replacing the active entry with one of the same band type preserves the
active entry's band type. -/
theorem bandType_set_eq (l : List Band) (i : Nat) (e' : Band)
    (he : e'.bandType = (l.getD i dummyBand).bandType) :
    ((l.set i e').getD i dummyBand).bandType = (l.getD i dummyBand).bandType := by
  by_cases h : i < l.length
  · rw [getD_set_self _ _ _ _ h]
    exact he
  · rw [set_of_length_le _ _ _ (Nat.le_of_not_lt h)]

/-- The next step value of the step-cycle branch of the `bStep` handler. -/
def nsOf (s : RxState) : Nat :=
  if s.currentStep = 1 then 5
  else if s.currentStep = 5 then 10
  else if s.currentStep = 10 then 100
  else if s.currentStep = 100 ∧ s.bandIdx = lastBand then 500
  else 1

/-- Outside FM mode the active band is not an FM-type band. -/
def InvBand (s : RxState) : Prop :=
  s.currentMode ≠ FM → (bandAt s).bandType ≠ FM_BAND_TYPE

theorem useBandF_InvBand (s : RxState) : InvBand (useBandF s).1 := by
  by_cases hfm : (bandAt s).bandType = FM_BAND_TYPE
  · rw [useBandF_eq_fm s hfm]
    intro hmode
    exact absurd rfl hmode
  · by_cases hss : s.ssbLoaded = true
    · rw [useBandF_eq_ssb s hfm hss]
      intro _
      exact hfm
    · rw [useBandF_eq_am s hfm (bool_eq_false hss)]
      intro _
      exact hfm

theorem stepF_InvBand (e : Event) (s : RxState) (h : InvBand s) :
    InvBand (stepF e s) := by
  cases e with
  | encoderRotate cw f =>
      dsimp only [stepF, stepT]
      split_ifs <;> exact h
  | bandUpBtn => exact useBandF_InvBand _
  | bandDownBtn => exact useBandF_InvBand _
  | volUpBtn => exact h
  | volDownBtn => exact h
  | seekUpBtn freqs f =>
      dsimp only [stepF, stepT]
      cases freqs.getLast? <;> exact h
  | seekDownBtn freqs f =>
      dsimp only [stepF, stepT]
      cases freqs.getLast? <;> exact h
  | muteBtn => exact h
  | amBtn =>
      dsimp only [stepF, stepT]
      split_ifs with h1
      · exact useBandF_InvBand _
      · exact h
  | fmBtn =>
      dsimp only [stepF, stepT]
      split_ifs with h1
      · exact useBandF_InvBand _
      · exact h
  | mwBtn => exact useBandF_InvBand _
  | swBtn => exact useBandF_InvBand _
  | lsbBtn =>
      dsimp only [stepF, stepT]
      split_ifs with h1 h2
      · exact useBandF_InvBand _
      · exact useBandF_InvBand _
      · exact h
  | usbBtn =>
      dsimp only [stepF, stepT]
      split_ifs with h1 h2
      · exact useBandF_InvBand _
      · exact useBandF_InvBand _
      · exact h
  | agcBtn => exact h
  | filterBtn =>
      dsimp only [stepF, stepT]
      split_ifs <;> exact h
  | stepBtn =>
      by_cases h1 : s.currentMode = FM
      · have e1 : stepF Event.stepBtn s = { s with fmStereo := !s.fmStereo } := by
          dsimp only [stepF, stepT]
          rw [if_pos h1]
        rw [e1]
        exact h
      · by_cases h2 : s.bfoOn = true ∧ (s.currentMode = LSB ∨ s.currentMode = USB)
        · have e1 : stepF Event.stepBtn s =
              { s with currentBFOStep := if s.currentBFOStep = 25 then 10 else 25 } := by
            dsimp only [stepF, stepT]
            rw [if_neg h1, if_pos h2]
          rw [e1]
          exact h
        · have e1 : stepF Event.stepBtn s =
              { s with currentStep := nsOf s,
                       band := s.band.set s.bandIdx
                         { bandAt s with currentStep := nsOf s } } := by
            dsimp only [stepF, stepT, nsOf]
            rw [if_neg h1, if_neg h2]
          rw [e1]
          intro hmode hcontra
          refine h hmode ?_
          have hty : (bandAt
              { s with currentStep := nsOf s,
                       band := s.band.set s.bandIdx
                         { bandAt s with currentStep := nsOf s } }).bandType
              = (bandAt s).bandType :=
            bandType_set_eq s.band s.bandIdx
              { bandAt s with currentStep := nsOf s } rfl
          rw [← hty]
          exact hcontra
  | encoderPush =>
      dsimp only [stepF, stepT]
      split_ifs <;> exact h

theorem reachable_InvBand (s : RxState) (h : Reachable s) : InvBand s := by
  induction h with
  | init =>
      intro hmode
      exact absurd rfl hmode
  | step e hr ih => exact stepF_InvBand e _ ih
  | rds r p hr heq ih =>
      intro hmode
      have h1 := fmRdsTick_nonRds _ _ _ _ heq
      rw [h1.2.1] at hmode
      rw [bandAt_eq, h1.2.2.2.1, h1.2.2.2.2]
      exact ih hmode

/-- `useBand` never issues the BFO command. -/
theorem useBandF_no_bfo (t : RxState) (v : Int) :
    ChipCmd.setSSBBfo v ∉ (useBandF t).2 := by
  by_cases hfm : (bandAt t).bandType = FM_BAND_TYPE
  · rw [useBandF_eq_fm t hfm]
    simp
  · by_cases hss : t.ssbLoaded = true
    · rw [useBandF_eq_ssb t hfm hss]
      unfold uAntCmd
      split_ifs <;> simp
    · rw [useBandF_eq_am t hfm (bool_eq_false hss)]
      unfold uAntCmd
      split_ifs <;> simp

/-- C6: pressing LSB (or USB) in a non-FM mode with the patch not loaded
issues exactly the loader sequence — reset, query library id, patch power-up,
fast I2C, patch download, standard I2C, SSB configuration — as a prefix of the
tick's chip traffic, before any retune; the loader prefix contains no `setSSB`
tune and the whole tick contains no BFO command; afterwards the mode is
LSB/USB and `ssbLoaded` is true. -/
theorem claim_C6 (s : RxState) (hr : Reachable s) (hm : s.currentMode ≠ FM)
    (hs : s.ssbLoaded = false) :
    (∃ rest,
      (stepT Event.lsbBtn s).2 = ssbLoaderCmds s.bwIdxSSB ++ rest ∧
      (∀ mn mx f st m, ChipCmd.setSSB mn mx f st m ∉ ssbLoaderCmds s.bwIdxSSB) ∧
      (∀ v, ChipCmd.setSSBBfo v ∉ (stepT Event.lsbBtn s).2) ∧
      (stepF Event.lsbBtn s).currentMode = LSB ∧
      (stepF Event.lsbBtn s).ssbLoaded = true) ∧
    (∃ rest,
      (stepT Event.usbBtn s).2 = ssbLoaderCmds s.bwIdxSSB ++ rest ∧
      (∀ mn mx f st m, ChipCmd.setSSB mn mx f st m ∉ ssbLoaderCmds s.bwIdxSSB) ∧
      (∀ v, ChipCmd.setSSBBfo v ∉ (stepT Event.usbBtn s).2) ∧
      (stepF Event.usbBtn s).currentMode = USB ∧
      (stepF Event.usbBtn s).ssbLoaded = true) := by
  have hband := reachable_InvBand s hr hm
  constructor
  · have hXty : (bandAt (saveBandState
        { (loadSSBF s).1 with currentMode := LSB })).bandType
        = (bandAt s).bandType :=
      bandType_set_eq s.band s.bandIdx
        { bandAt { (loadSSBF s).1 with currentMode := LSB } with
            currentFreq := s.currentFrequency, currentStep := s.currentStep } rfl
    have hX : (bandAt (saveBandState
        { (loadSSBF s).1 with currentMode := LSB })).bandType ≠ FM_BAND_TYPE := by
      rw [hXty]
      exact hband
    have e1 : stepT Event.lsbBtn s =
        ((useBandF (saveBandState { (loadSSBF s).1 with currentMode := LSB })).1,
         ssbLoaderCmds s.bwIdxSSB ++
           (useBandF (saveBandState { (loadSSBF s).1 with currentMode := LSB })).2) := by
      dsimp only [stepT]
      rw [if_pos hm, if_pos hs]
      rfl
    refine ⟨(useBandF (saveBandState { (loadSSBF s).1 with currentMode := LSB })).2,
      ?_, ?_, ?_, ?_, ?_⟩
    · rw [e1]
    · intro mn mx f st m hmem
      simp [ssbLoaderCmds] at hmem
    · intro v
      rw [e1]
      dsimp only
      rw [List.mem_append]
      rintro (hmem | hmem)
      · simp [ssbLoaderCmds] at hmem
      · exact useBandF_no_bfo _ v hmem
    · show (stepT Event.lsbBtn s).1.currentMode = LSB
      rw [e1]
      dsimp only
      rw [useBandF_eq_ssb _ hX rfl]
      rfl
    · show (stepT Event.lsbBtn s).1.ssbLoaded = true
      rw [e1]
      dsimp only
      rw [useBandF_eq_ssb _ hX rfl]
      rfl
  · have hXty : (bandAt (saveBandState
        { (loadSSBF s).1 with currentMode := USB })).bandType
        = (bandAt s).bandType :=
      bandType_set_eq s.band s.bandIdx
        { bandAt { (loadSSBF s).1 with currentMode := USB } with
            currentFreq := s.currentFrequency, currentStep := s.currentStep } rfl
    have hX : (bandAt (saveBandState
        { (loadSSBF s).1 with currentMode := USB })).bandType ≠ FM_BAND_TYPE := by
      rw [hXty]
      exact hband
    have e1 : stepT Event.usbBtn s =
        ((useBandF (saveBandState { (loadSSBF s).1 with currentMode := USB })).1,
         ssbLoaderCmds s.bwIdxSSB ++
           (useBandF (saveBandState { (loadSSBF s).1 with currentMode := USB })).2) := by
      dsimp only [stepT]
      rw [if_pos hm, if_pos hs]
      rfl
    refine ⟨(useBandF (saveBandState { (loadSSBF s).1 with currentMode := USB })).2,
      ?_, ?_, ?_, ?_, ?_⟩
    · rw [e1]
    · intro mn mx f st m hmem
      simp [ssbLoaderCmds] at hmem
    · intro v
      rw [e1]
      dsimp only
      rw [List.mem_append]
      rintro (hmem | hmem)
      · simp [ssbLoaderCmds] at hmem
      · exact useBandF_no_bfo _ v hmem
    · show (stepT Event.usbBtn s).1.currentMode = USB
      rw [e1]
      dsimp only
      rw [useBandF_eq_ssb _ hX rfl]
      rfl
    · show (stepT Event.usbBtn s).1.ssbLoaded = true
      rw [e1]
      dsimp only
      rw [useBandF_eq_ssb _ hX rfl]
      rfl

/-- Witness for C6 on the reachable AM state one band-up press from start. -/
theorem claim_C6_witness :
    (stepF Event.bandUpBtn initState).currentMode ≠ FM ∧
    (stepF Event.bandUpBtn initState).ssbLoaded = false ∧
    (∃ rest,
      (stepT Event.lsbBtn (stepF Event.bandUpBtn initState)).2 =
        ssbLoaderCmds (stepF Event.bandUpBtn initState).bwIdxSSB ++ rest ∧
      (∀ mn mx f st m, ChipCmd.setSSB mn mx f st m ∉
        ssbLoaderCmds (stepF Event.bandUpBtn initState).bwIdxSSB) ∧
      (∀ v, ChipCmd.setSSBBfo v ∉
        (stepT Event.lsbBtn (stepF Event.bandUpBtn initState)).2) ∧
      (stepF Event.lsbBtn (stepF Event.bandUpBtn initState)).currentMode = LSB ∧
      (stepF Event.lsbBtn (stepF Event.bandUpBtn initState)).ssbLoaded = true) := by
  refine ⟨by decide, by decide, ?_⟩
  exact (claim_C6 (stepF Event.bandUpBtn initState)
    (Reachable.step Event.bandUpBtn Reachable.init) (by decide) (by decide)).1

/-! ### Step cycling (claim C7) -/

/-- C7: a non-BFO press of the step control in a non-FM mode advances the step
along 1 → 5 → 10 → 100 → 1, except that on the last band-table entry (the
synthetic all-HF band) 100 advances to 500 before wrapping to 1; and the press
re-derives the seek spacing as min(step, 10). -/
theorem claim_C7 (s : RxState) (hm : ¬ s.currentMode = FM)
    (hb : ¬ (s.bfoOn = true ∧ (s.currentMode = LSB ∨ s.currentMode = USB))) :
    (s.currentStep = 1 → (stepF Event.stepBtn s).currentStep = 5) ∧
    (s.currentStep = 5 → (stepF Event.stepBtn s).currentStep = 10) ∧
    (s.currentStep = 10 → (stepF Event.stepBtn s).currentStep = 100) ∧
    (s.currentStep = 100 → s.bandIdx = lastBand →
      (stepF Event.stepBtn s).currentStep = 500) ∧
    (s.currentStep = 100 → ¬ s.bandIdx = lastBand →
      (stepF Event.stepBtn s).currentStep = 1) ∧
    (s.currentStep = 500 → (stepF Event.stepBtn s).currentStep = 1) ∧
    ChipCmd.setSeekAmSpacing (min ((stepF Event.stepBtn s).currentStep) 10) ∈
      (stepT Event.stepBtn s).2 := by
  have hstep : (stepF Event.stepBtn s).currentStep = nsOf s := by
    dsimp only [stepF, stepT, nsOf]
    rw [if_neg hm, if_neg hb]
  have htr : (stepT Event.stepBtn s).2 =
      [ChipCmd.setFrequencyStep (nsOf s),
       ChipCmd.setSeekAmSpacing (if nsOf s > 10 then 10 else nsOf s)] := by
    dsimp only [stepT, nsOf]
    rw [if_neg hm, if_neg hb]
  refine ⟨?_, ?_, ?_, ?_, ?_, ?_, ?_⟩
  · intro h1
    rw [hstep]
    simp [nsOf, h1]
  · intro h1
    rw [hstep]
    simp [nsOf, h1]
  · intro h1
    rw [hstep]
    simp [nsOf, h1]
  · intro h1 h2
    rw [hstep]
    simp [nsOf, h1, h2]
  · intro h1 h2
    rw [hstep]
    simp [nsOf, h1, h2]
  · intro h1
    rw [hstep]
    simp [nsOf, h1]
  · rw [htr, hstep]
    have hmin : (if nsOf s > 10 then 10 else nsOf s) = min (nsOf s) 10 := by
      rw [Nat.min_def]
      split_ifs <;> omega
    rw [hmin]
    simp

/-- Witness for C7 on the reachable AM state one band-up press from start
(step 1 there). -/
theorem claim_C7_witness :
    ¬ (stepF Event.bandUpBtn initState).currentMode = FM ∧
    (stepF Event.bandUpBtn initState).currentStep = 1 ∧
    (stepF Event.stepBtn (stepF Event.bandUpBtn initState)).currentStep = 5 := by
  refine ⟨by decide, by decide, ?_⟩
  exact (claim_C7 (stepF Event.bandUpBtn initState) (by decide) (by decide)).1
    (by decide)

/-! ### RDS scheduling (claim C9) -/

theorem bool_and_parts {a b : Bool} (h : (a && b) = true) :
    a = true ∧ b = true := by
  cases a
  · simp at h
  · cases b
    · simp at h
    · exact ⟨rfl, rfl⟩

theorem mem_pushOf_msg (ptr : Option String) (cache v : String) :
    RdsPush.msg v ∈ pushOf ptr cache RdsPush.msg ↔ ptr = some v ∧ v ≠ cache := by
  unfold pushOf
  cases ptr with
  | none => simp
  | some a =>
      dsimp only
      split_ifs with h
      · constructor
        · intro hmem
          exact absurd hmem (List.not_mem_nil _)
        · rintro ⟨hsome, hne⟩
          injection hsome with ha
          subst ha
          exact absurd h.symm hne
      · constructor
        · intro hmem
          have heq := List.mem_singleton.mp hmem
          injection heq with ha
          subst ha
          exact ⟨rfl, fun hc => h hc.symm⟩
        · rintro ⟨hsome, hne⟩
          injection hsome with ha
          subst ha
          exact List.mem_singleton.mpr rfl

theorem mem_pushOf_station (ptr : Option String) (cache v : String) :
    RdsPush.station v ∈ pushOf ptr cache RdsPush.station ↔
      ptr = some v ∧ v ≠ cache := by
  unfold pushOf
  cases ptr with
  | none => simp
  | some a =>
      dsimp only
      split_ifs with h
      · constructor
        · intro hmem
          exact absurd hmem (List.not_mem_nil _)
        · rintro ⟨hsome, hne⟩
          injection hsome with ha
          subst ha
          exact absurd h.symm hne
      · constructor
        · intro hmem
          have heq := List.mem_singleton.mp hmem
          injection heq with ha
          subst ha
          exact ⟨rfl, fun hc => h hc.symm⟩
        · rintro ⟨hsome, hne⟩
          injection hsome with ha
          subst ha
          exact List.mem_singleton.mpr rfl

theorem mem_pushOf_time (ptr : Option String) (cache v : String) :
    RdsPush.time v ∈ pushOf ptr cache RdsPush.time ↔
      ptr = some v ∧ v ≠ cache := by
  unfold pushOf
  cases ptr with
  | none => simp
  | some a =>
      dsimp only
      split_ifs with h
      · constructor
        · intro hmem
          exact absurd hmem (List.not_mem_nil _)
        · rintro ⟨hsome, hne⟩
          injection hsome with ha
          subst ha
          exact absurd h.symm hne
      · constructor
        · intro hmem
          have heq := List.mem_singleton.mp hmem
          injection heq with ha
          subst ha
          exact ⟨rfl, fun hc => h hc.symm⟩
        · rintro ⟨hsome, hne⟩
          injection hsome with ha
          subst ha
          exact List.mem_singleton.mpr rfl

theorem msg_not_mem_station (ptr : Option String) (cache v : String) :
    RdsPush.msg v ∉ pushOf ptr cache RdsPush.station := by
  unfold pushOf
  cases ptr with
  | none => simp
  | some a =>
      dsimp only
      split_ifs <;> simp

theorem msg_not_mem_time (ptr : Option String) (cache v : String) :
    RdsPush.msg v ∉ pushOf ptr cache RdsPush.time := by
  unfold pushOf
  cases ptr with
  | none => simp
  | some a =>
      dsimp only
      split_ifs <;> simp

theorem station_not_mem_msg (ptr : Option String) (cache v : String) :
    RdsPush.station v ∉ pushOf ptr cache RdsPush.msg := by
  unfold pushOf
  cases ptr with
  | none => simp
  | some a =>
      dsimp only
      split_ifs <;> simp

theorem station_not_mem_time (ptr : Option String) (cache v : String) :
    RdsPush.station v ∉ pushOf ptr cache RdsPush.time := by
  unfold pushOf
  cases ptr with
  | none => simp
  | some a =>
      dsimp only
      split_ifs <;> simp

theorem time_not_mem_msg (ptr : Option String) (cache v : String) :
    RdsPush.time v ∉ pushOf ptr cache RdsPush.msg := by
  unfold pushOf
  cases ptr with
  | none => simp
  | some a =>
      dsimp only
      split_ifs <;> simp

theorem time_not_mem_station (ptr : Option String) (cache v : String) :
    RdsPush.time v ∉ pushOf ptr cache RdsPush.station := by
  unfold pushOf
  cases ptr with
  | none => simp
  | some a =>
      dsimp only
      split_ifs <;> simp

/-- C9: each RDS field is pushed exactly when the chip offers a value that
differs from the last value pushed for that field; and on an FM frequency
change the whole tick's pushes come from `checkRDS` run on a state whose three
caches have been cleared first (the clearing itself pushes nothing). -/
theorem claim_C9 :
    (∀ (s : RxState) (r : RdsResp) (v : String),
      (RdsPush.msg v ∈ (checkRDSF s r).2 ↔
        r.received = true ∧ r.sync = true ∧ r.syncFound = true ∧
        r.text2A = some v ∧ v ≠ s.bufferRdsMsg) ∧
      (RdsPush.station v ∈ (checkRDSF s r).2 ↔
        r.received = true ∧ r.sync = true ∧ r.syncFound = true ∧
        r.text0A = some v ∧ v ≠ s.bufferStatioName) ∧
      (RdsPush.time v ∈ (checkRDSF s r).2 ↔
        r.received = true ∧ r.sync = true ∧ r.syncFound = true ∧
        r.time = some v ∧ v ≠ s.bufferRdsTime)) ∧
    (∀ (s : RxState) (r : RdsResp) (a b c : String),
      s.currentMode = FM → s.currentFrequency ≠ s.previousFrequency →
      s.rdsTimePtr = some a → s.rdsMsgPtr = some b → s.stationNamePtr = some c →
      fmRdsTick s r =
        some ((checkRDSF (clearedState s) r).1, (checkRDSF (clearedState s) r).2) ∧
      (clearedState s).bufferRdsMsg = "" ∧
      (clearedState s).bufferStatioName = "" ∧
      (clearedState s).bufferRdsTime = "") := by
  constructor
  · intro s r v
    cases h1 : r.received with
    | false =>
        rw [checkRDSF_not_received s r h1]
        refine ⟨?_, ?_, ?_⟩ <;>
          (constructor
           · intro hmem
             exact absurd hmem (List.not_mem_nil _)
           · rintro ⟨hrec, _⟩
             exact absurd hrec (by simp))
    | true =>
        cases h2 : r.sync && r.syncFound with
        | false =>
            rw [checkRDSF_not_sync s r h1 h2]
            refine ⟨?_, ?_, ?_⟩ <;>
              (constructor
               · intro hmem
                 exact absurd hmem (List.not_mem_nil _)
               · rintro ⟨_, hsy, hsf, _, _⟩
                 rw [hsy, hsf] at h2
                 exact absurd h2 (by simp))
        | true =>
            obtain ⟨h3, h4⟩ := bool_and_parts h2
            rw [checkRDSF_eq s r h1 h3 h4]
            dsimp only
            refine ⟨?_, ?_, ?_⟩
            · rw [List.mem_append, List.mem_append, mem_pushOf_msg]
              constructor
              · rintro ((h5 | h5) | h5)
                · exact ⟨rfl, h3, h4, h5.1, h5.2⟩
                · exact absurd h5 (msg_not_mem_station _ _ _)
                · exact absurd h5 (msg_not_mem_time _ _ _)
              · rintro ⟨_, _, _, h5, h6⟩
                exact Or.inl (Or.inl ⟨h5, h6⟩)
            · rw [List.mem_append, List.mem_append, mem_pushOf_station]
              constructor
              · rintro ((h5 | h5) | h5)
                · exact absurd h5 (station_not_mem_msg _ _ _)
                · exact ⟨rfl, h3, h4, h5.1, h5.2⟩
                · exact absurd h5 (station_not_mem_time _ _ _)
              · rintro ⟨_, _, _, h5, h6⟩
                exact Or.inl (Or.inr ⟨h5, h6⟩)
            · rw [List.mem_append, List.mem_append, mem_pushOf_time]
              constructor
              · rintro ((h5 | h5) | h5)
                · exact absurd h5 (time_not_mem_msg _ _ _)
                · exact absurd h5 (time_not_mem_station _ _ _)
                · exact ⟨rfl, h3, h4, h5.1, h5.2⟩
              · rintro ⟨_, _, _, h5, h6⟩
                exact Or.inr ⟨h5, h6⟩
  · intro s r a b c hfm hne ht hm2 hn
    exact ⟨fmRdsTick_eq_cleared s r hfm hne a b c ht hm2 hn, rfl, rfl, rfl⟩

/-- A concrete FM state with assigned RDS pointers and a changed frequency,
for the C9 witness. -/
def rdsWitnessState : RxState :=
  { initState with
      currentFrequency := 10400
      rdsMsgPtr := some "x"
      stationNamePtr := some "y"
      rdsTimePtr := some "z" }

/-- Witness for C9 at a concrete state and chip response. -/
theorem claim_C9_witness :
    rdsWitnessState.currentMode = FM ∧
    rdsWitnessState.currentFrequency ≠ rdsWitnessState.previousFrequency ∧
    fmRdsTick rdsWitnessState ⟨true, true, true, some "M", some "S", none⟩ =
      some ((checkRDSF (clearedState rdsWitnessState)
              ⟨true, true, true, some "M", some "S", none⟩).1,
            (checkRDSF (clearedState rdsWitnessState)
              ⟨true, true, true, some "M", some "S", none⟩).2) := by
  refine ⟨by decide, by decide, ?_⟩
  exact (claim_C9.2 rdsWitnessState ⟨true, true, true, some "M", some "S", none⟩
    "z" "x" "y" (by decide) (by decide) rfl rfl rfl).1

end SI47XX
